import Mathlib

/-! Verification of zrnt: block header processing, gossip validation and the
transition pipelines.

Shallow embedding of

* `eth2/beacon/components/block_header.go` : `BeaconBlockHeader.Process`
* `eth2/validation/gossip/beacon_block.go` : `GossipValidator.ValidateBeaconBlock`
* `eth2/beacon/sharding/transition.go` : `BeaconStateView.ProcessBlock`, `ProcessEpoch`

Machine integers (`uint64` slots, epochs, validator indices) are natural
numbers: the embedded code only compares them, it performs no arithmetic.
Roots, public keys, signatures and domains are opaque byte strings in the
source; they are natural numbers here, with `0` for the all-zero value.

Code that the embedded functions call but whose source is not part of the
development (hashing, BLS, the chain view, the state accessors) is taken as
a parameter, collected in a record of functions.
-/

namespace Zrnt

abbrev Slot := Nat
abbrev Epoch := Nat
abbrev ValidatorIndex := Nat
abbrev Gwei := Nat
abbrev Root := Nat
abbrev BLSPubkey := Nat
abbrev BLSSignature := Nat
abbrev BLSDomain := Nat
abbrev BLSDomainType := Nat

/-! ## Block header processing (`components/block_header.go`) -/

/-- The `BeaconBlockHeader` struct of `block_header.go`. -/
structure BeaconBlockHeader where
  Slot : Zrnt.Slot
  ParentRoot : Root
  StateRoot : Root
  BodyRoot : Root
  Signature : BLSSignature
deriving DecidableEq, Repr

/-- Validator record; the header code reads `Pubkey` and `Slashed`. -/
structure Validator where
  Pubkey : BLSPubkey
  WithdrawalCredentials : Root
  EffectiveBalance : Gwei
  Slashed : Bool
  ActivationEligibilityEpoch : Epoch
  ActivationEpoch : Epoch
  ExitEpoch : Epoch
  WithdrawableEpoch : Epoch
deriving DecidableEq, Repr

/-- The beacon state as far as header processing touches it: the slot, the
latest block header and the validator registry are explicit, every other
field of the state (balances, randao mixes, roots, checkpoints, ...) is
carried in `Rest`. -/
structure BeaconState (ρ : Type) where
  Slot : Zrnt.Slot
  LatestBlockHeader : BeaconBlockHeader
  Validators : List Validator
  Rest : ρ
deriving DecidableEq, Repr

/-- The functions `Process` calls whose code is outside the embedded file:
`ssz.SigningRoot` for headers, the state accessors `GetBeaconProposerIndex`,
`Epoch`, `GetDomain`, the verifier `bls.BlsVerify` and the constant
`DOMAIN_BEACON_PROPOSER`. -/
structure HeaderDeps (ρ : Type) where
  SigningRoot : BeaconBlockHeader → Root
  GetBeaconProposerIndex : BeaconState ρ → ValidatorIndex
  Epoch : BeaconState ρ → Zrnt.Epoch
  GetDomain : BeaconState ρ → BLSDomainType → Zrnt.Epoch → BLSDomain
  BlsVerify : BLSPubkey → Root → BLSSignature → BLSDomain → Bool
  DOMAIN_BEACON_PROPOSER : BLSDomainType

/-- The four errors `Process` constructs, in source order. -/
inductive HeaderError where
  | slotMismatch
  | parentRootMismatch (got want : Root)
  | slashedProposer
  | signatureInvalid
deriving DecidableEq, Repr

/-- How a call of `Process` ends: it returns (`nil` is `none`), or the slice
index `state.Validators[proposerIndex]` is out of range and the call panics. -/
inductive HeaderOutcome where
  | returned (err : Option HeaderError)
  | indexPanic
deriving DecidableEq, Repr

/-- The header written into `state.LatestBlockHeader`: the composite literal
of `Process`, with `StateRoot` and `Signature` left at their zero value. -/
def storedHeader (header : BeaconBlockHeader) : BeaconBlockHeader :=
  { Slot := header.Slot
    ParentRoot := header.ParentRoot
    StateRoot := 0
    BodyRoot := header.BodyRoot
    Signature := 0 }

/-- `func (header *BeaconBlockHeader) Process(state *BeaconState) error`.
The state is passed explicitly: the first component is the state the pointer
refers to when the call ends. -/
def BeaconBlockHeader.Process {ρ : Type} (d : HeaderDeps ρ)
    (header : BeaconBlockHeader) (state : BeaconState ρ) :
    BeaconState ρ × HeaderOutcome :=
  if header.Slot ≠ state.Slot then
    (state, .returned (some .slotMismatch))
  else
    let signingRoot := d.SigningRoot state.LatestBlockHeader
    if header.ParentRoot ≠ signingRoot then
      (state, .returned (some (.parentRootMismatch header.ParentRoot signingRoot)))
    else
      let state := { state with LatestBlockHeader := storedHeader header }
      let proposerIndex := d.GetBeaconProposerIndex state
      match state.Validators[proposerIndex]? with
      | none => (state, .indexPanic)
      | some proposer =>
        if proposer.Slashed then
          (state, .returned (some .slashedProposer))
        else if !d.BlsVerify proposer.Pubkey (d.SigningRoot header) header.Signature
            (d.GetDomain state d.DOMAIN_BEACON_PROPOSER (d.Epoch state)) then
          (state, .returned (some .signatureInvalid))
        else
          (state, .returned none)

/-- The state accessors read nothing of `LatestBlockHeader`: proposer index,
epoch and signature domain of a state do not change when only its latest
block header is replaced. -/
def HeaderDeps.IgnoresLatestHeader {ρ : Type} (d : HeaderDeps ρ) : Prop :=
  ∀ (s : BeaconState ρ) (h : BeaconBlockHeader),
    d.GetBeaconProposerIndex { s with LatestBlockHeader := h } = d.GetBeaconProposerIndex s ∧
    d.Epoch { s with LatestBlockHeader := h } = d.Epoch s ∧
    (∀ t e, d.GetDomain { s with LatestBlockHeader := h } t e = d.GetDomain s t e)

/-! ### A concrete instance for evaluation -/

/-- Dependencies used to evaluate `Process`: the signing root adds up slot,
parent root and body root, the proposer is the validator at `slot % 2`, the
epoch is `slot / 8`, and a signature verifies when it equals
`pubkey + root + domain`. -/
def demoDeps : HeaderDeps Unit where
  SigningRoot h := h.Slot + 7 * h.ParentRoot + 11 * h.BodyRoot + 1
  GetBeaconProposerIndex s := s.Slot % 2
  Epoch s := s.Slot / 8
  GetDomain _ t e := t + e
  BlsVerify pk root sig dom := sig == pk + root + dom
  DOMAIN_BEACON_PROPOSER := 0

def demoValidator (pk : BLSPubkey) (slashed : Bool) : Validator :=
  { Pubkey := pk, WithdrawalCredentials := 0, EffectiveBalance := 32, Slashed := slashed,
    ActivationEligibilityEpoch := 0, ActivationEpoch := 0, ExitEpoch := 1000,
    WithdrawableEpoch := 1000 }

def demoGenesisHeader : BeaconBlockHeader :=
  { Slot := 0, ParentRoot := 0, StateRoot := 0, BodyRoot := 5, Signature := 0 }

/-- State at slot 1 whose scheduled proposer (index 1) has public key 40. -/
def demoState (proposerSlashed : Bool) : BeaconState Unit :=
  { Slot := 1, LatestBlockHeader := demoGenesisHeader,
    Validators := [demoValidator 30 false, demoValidator 40 proposerSlashed], Rest := () }

/-- A slot-1 header on top of `demoGenesisHeader` with body root 9. -/
def demoHeader (sig : BLSSignature) : BeaconBlockHeader :=
  { Slot := 1, ParentRoot := 56, StateRoot := 77, BodyRoot := 9, Signature := sig }

/-! ## Gossip validation of beacon blocks (`validation/gossip/beacon_block.go`) -/

/-- The message of a signed block: `beacon.BeaconBlock`, with the body kept
abstract (the validator only hashes it). -/
structure BeaconBlock (β : Type) where
  Slot : Zrnt.Slot
  ProposerIndex : ValidatorIndex
  ParentRoot : Root
  StateRoot : Root
  Body : β

/-- The `beacon.SignedBeaconBlock` container. -/
structure SignedBeaconBlock (β : Type) where
  Message : BeaconBlock β
  Signature : BLSSignature

structure Checkpoint where
  Epoch : Zrnt.Epoch
  Root : Zrnt.Root
deriving DecidableEq, Repr

/-- The part of `*EpochsContext` the validator uses: `PubkeyCache.Pubkey`
(`none` when its `ok` result is false) and `GetBeaconProposer` (`none` when
it returns an error). -/
structure EpochsContext where
  Pubkey : ValidatorIndex → Option BLSPubkey
  GetBeaconProposer : Zrnt.Slot → Option ValidatorIndex

/-- The chain entry `ByBlockRoot` returns: its `Slot()` and the result of
`EpochsContext(ctx)` (`none` when that returns an error). -/
structure BlockRef where
  Slot : Zrnt.Slot
  EpochsContext : Option Zrnt.EpochsContext

/-- The receiver `gv`: the chain view, the spec and the primitives
`ValidateBeaconBlock` calls. `ByBlockRoot` and `GetDomain` are `none` when
the Go call returns a non-nil error; `IsAncestor` returns the pair
`(unknown, isAncestor)`; `EpochStartSlot` is the first result of
`Spec.EpochStartSlot`, whose error the caller discards. -/
structure GossipValidator (β : Type) where
  MAXIMUM_GOSSIP_CLOCK_DISPARITY : Nat
  SlotAfter : Nat → Zrnt.Slot
  ByBlockRoot : Root → Option BlockRef
  Finalized : Checkpoint
  IsAncestor : Root → Root → Bool × Bool
  EpochStartSlot : Zrnt.Epoch → Zrnt.Slot
  SlotToEpoch : Zrnt.Slot → Zrnt.Epoch
  DOMAIN_BEACON_PROPOSER : BLSDomainType
  GetDomain : BLSDomainType → Zrnt.Epoch → Option BLSDomain
  HashTreeRoot : BeaconBlock β → Root
  ComputeSigningRoot : Root → BLSDomain → Root
  Verify : BLSPubkey → Root → BLSSignature → Bool

inductive GossipValidatorCode where
  | REJECT
  | IGNORE
  | ACCEPT
deriving DecidableEq, Repr

/-- One constructor per error value built in `ValidateBeaconBlock`, carrying
the values formatted into the message. -/
inductive GossipError where
  | laterThanMaxSlot (slot maxSlot : Zrnt.Slot)
  | alreadySeen (slot : Zrnt.Slot) (proposer : ValidatorIndex)
  | unavailableParent (parentRoot : Root)
  | notAfterParent (slot parentSlot : Zrnt.Slot) (parentRoot : Root)
  | notAfterFinalized (slot finSlot : Zrnt.Slot)
  | ancestryUnknown (parentRoot finRoot : Root)
  | notInFinalizedSubtree (parentRoot finRoot : Root)
  | noParentContext (parentRoot : Root)
  | noPubkey (proposer : ValidatorIndex)
  | noDomain (slot : Zrnt.Slot)
  | invalidSignature
  | alreadySeenOnMark (slot : Zrnt.Slot) (proposer : ValidatorIndex)
  | noProposer (slot : Zrnt.Slot)
  | wrongProposer (expected actual : ValidatorIndex)
deriving DecidableEq, Repr

/-- The value `GossipValidatorResult{code, err}`; `Err = none` is `nil`. -/
structure GossipValidatorResult where
  Result : GossipValidatorCode
  Err : Option GossipError
deriving DecidableEq, Repr

/-- A call of one of the two seen-set callbacks. -/
inductive SeenCall where
  | hasBlock (slot : Zrnt.Slot) (proposer : ValidatorIndex)
  | markBlock (slot : Zrnt.Slot) (proposer : ValidatorIndex)
deriving DecidableEq, Repr

/-- A seen-set callback (`BlockSeenFn`, `MarkBlockSeenFn`): a Go closure over
a seen-set of type `σ`, returning its boolean and the seen-set after it. -/
abbrev SeenFn (σ : Type) := Zrnt.Slot → ValidatorIndex → σ → Bool × σ

/-- What a call of `ValidateBeaconBlock` leaves behind: the returned value,
the seen-set after the call and the callback calls made, in order. -/
structure Validation (σ : Type) where
  Value : GossipValidatorResult
  Seen : σ
  Calls : List SeenCall

/-- `func (gv *GossipValidator) ValidateBeaconBlock(ctx, signedBlock, hasBlock, markBlock)`.
The statements are those of the source, in order; `seen` is the seen-set
the two callbacks close over. -/
def GossipValidator.ValidateBeaconBlock {β σ : Type} (gv : GossipValidator β)
    (signedBlock : SignedBeaconBlock β) (hasBlock markBlock : SeenFn σ) (seen : σ) :
    Validation σ :=
  let block := signedBlock.Message
  let maxSlot := gv.SlotAfter gv.MAXIMUM_GOSSIP_CLOCK_DISPARITY
  if maxSlot < block.Slot then
    ⟨⟨.IGNORE, some (.laterThanMaxSlot block.Slot maxSlot)⟩, seen, []⟩
  else
    let has := hasBlock block.Slot block.ProposerIndex seen
    let calls := [SeenCall.hasBlock block.Slot block.ProposerIndex]
    if has.1 then
      ⟨⟨.IGNORE, some (.alreadySeen block.Slot block.ProposerIndex)⟩, has.2, calls⟩
    else
      match gv.ByBlockRoot block.ParentRoot with
      | none => ⟨⟨.IGNORE, some (.unavailableParent block.ParentRoot)⟩, has.2, calls⟩
      | some parentRef =>
        if parentRef.Slot ≥ block.Slot then
          ⟨⟨.IGNORE, some (.notAfterParent block.Slot parentRef.Slot block.ParentRoot)⟩,
            has.2, calls⟩
        else
          let fin := gv.Finalized
          let finSlot := gv.EpochStartSlot fin.Epoch
          if block.Slot ≤ finSlot then
            ⟨⟨.IGNORE, some (.notAfterFinalized block.Slot finSlot)⟩, has.2, calls⟩
          else
            let anc := gv.IsAncestor block.ParentRoot fin.Root
            if anc.1 then
              ⟨⟨.IGNORE, some (.ancestryUnknown block.ParentRoot fin.Root)⟩, has.2, calls⟩
            else if !anc.2 && block.ParentRoot != fin.Root then
              ⟨⟨.REJECT, some (.notInFinalizedSubtree block.ParentRoot fin.Root)⟩,
                has.2, calls⟩
            else
              match parentRef.EpochsContext with
              | none => ⟨⟨.IGNORE, some (.noParentContext block.ParentRoot)⟩, has.2, calls⟩
              | some parentEpc =>
                match parentEpc.Pubkey block.ProposerIndex with
                | none => ⟨⟨.IGNORE, some (.noPubkey block.ProposerIndex)⟩, has.2, calls⟩
                | some pub =>
                  match gv.GetDomain gv.DOMAIN_BEACON_PROPOSER (gv.SlotToEpoch block.Slot) with
                  | none => ⟨⟨.IGNORE, some (.noDomain block.Slot)⟩, has.2, calls⟩
                  | some domain =>
                    if gv.Verify pub (gv.ComputeSigningRoot (gv.HashTreeRoot block) domain)
                        signedBlock.Signature then
                      ⟨⟨.REJECT, some .invalidSignature⟩, has.2, calls⟩
                    else
                      let mark := markBlock block.Slot block.ProposerIndex has.2
                      let calls := calls ++ [SeenCall.markBlock block.Slot block.ProposerIndex]
                      if !mark.1 then
                        ⟨⟨.IGNORE, some (.alreadySeenOnMark block.Slot block.ProposerIndex)⟩,
                          mark.2, calls⟩
                      else
                        let targetEpoch := gv.SlotToEpoch block.Slot
                        let parentEpoch := gv.SlotToEpoch parentRef.Slot
                        let lookup : Option ValidatorIndex :=
                          if targetEpoch = parentEpoch then
                            parentEpc.GetBeaconProposer block.Slot
                          else some 1234
                        match lookup with
                        | none => ⟨⟨.IGNORE, some (.noProposer block.Slot)⟩, mark.2, calls⟩
                        | some proposer =>
                          if proposer ≠ block.ProposerIndex then
                            ⟨⟨.REJECT, some (.wrongProposer proposer block.ProposerIndex)⟩,
                              mark.2, calls⟩
                          else ⟨⟨.ACCEPT, none⟩, mark.2, calls⟩

/-- The rule of the gossip table a diagnostic comes from: the number of the
rule whose check in `ValidateBeaconBlock` returns it. The failures to resolve
the parent's epochs context, the public key and the domain belong to the
signature rule 7. -/
def GossipError.rule : GossipError → Nat
  | .laterThanMaxSlot .. => 1
  | .alreadySeen .. => 2
  | .unavailableParent .. => 3
  | .notAfterParent .. => 4
  | .notAfterFinalized .. => 5
  | .ancestryUnknown .. => 6
  | .notInFinalizedSubtree .. => 6
  | .noParentContext .. => 7
  | .noPubkey .. => 7
  | .noDomain .. => 7
  | .invalidSignature => 7
  | .alreadySeenOnMark .. => 8
  | .noProposer .. => 9
  | .wrongProposer .. => 9

/-- The call passes rules 1 to `k`: it is not ended by the check of any of
these rules (it returns no diagnostic, or one of a later rule). -/
def Validation.PassesRules {σ : Type} (v : Validation σ) (k : Nat) : Prop :=
  ∀ e, v.Value.Err = some e → k < e.rule

/-- Rules 1-6 are passed and the parent's epochs context, the proposer's
public key and the signing domain resolve: the conditions under which
`ValidateBeaconBlock` arrives at its signature test. -/
structure ReachesSignature {β σ : Type} (gv : GossipValidator β) (signedBlock : SignedBeaconBlock β)
    (hasBlock : SeenFn σ) (seen : σ) (parentRef : BlockRef) (parentEpc : EpochsContext)
    (pub : BLSPubkey) (domain : BLSDomain) : Prop where
  rule1 : signedBlock.Message.Slot ≤ gv.SlotAfter gv.MAXIMUM_GOSSIP_CLOCK_DISPARITY
  rule2 : (hasBlock signedBlock.Message.Slot signedBlock.Message.ProposerIndex seen).1 = false
  rule3 : gv.ByBlockRoot signedBlock.Message.ParentRoot = some parentRef
  rule4 : parentRef.Slot < signedBlock.Message.Slot
  rule5 : gv.EpochStartSlot gv.Finalized.Epoch < signedBlock.Message.Slot
  rule6 : (gv.IsAncestor signedBlock.Message.ParentRoot gv.Finalized.Root).1 = false ∧
    ((gv.IsAncestor signedBlock.Message.ParentRoot gv.Finalized.Root).2 = true ∨
      signedBlock.Message.ParentRoot = gv.Finalized.Root)
  context : parentRef.EpochsContext = some parentEpc
  pubkey : parentEpc.Pubkey signedBlock.Message.ProposerIndex = some pub
  domain : gv.GetDomain gv.DOMAIN_BEACON_PROPOSER (gv.SlotToEpoch signedBlock.Message.Slot)
    = some domain

/-! ### A concrete chain view for evaluation -/

/-- Epochs context with four validators (public keys 100..103) and the
proposer of slot `s` being validator `s % 4`, known for slots below 64. -/
def demoEpc : EpochsContext where
  Pubkey i := if i < 4 then some (100 + i) else none
  GetBeaconProposer s := if s < 64 then some (s % 4) else none

/-- Gossip validator at current slot 20 with 8 slots per epoch. The chain
knows the finalized block (root 3, slot 8, finalized epoch 1) and a block with
root 7 at slot 9; `anc` is the answer `IsAncestor` gives. A signature verifies
when it equals `pubkey + signing root`. -/
def demoGossip (anc : Bool × Bool) : GossipValidator Unit where
  MAXIMUM_GOSSIP_CLOCK_DISPARITY := 500
  SlotAfter _ := 20
  ByBlockRoot r :=
    if r = 7 then some ⟨9, some demoEpc⟩
    else if r = 3 then some ⟨8, some demoEpc⟩
    else none
  Finalized := ⟨1, 3⟩
  IsAncestor _ _ := anc
  EpochStartSlot e := e * 8
  SlotToEpoch s := s / 8
  DOMAIN_BEACON_PROPOSER := 0
  GetDomain t e := some (t + e)
  HashTreeRoot b := b.Slot + 3 * b.ProposerIndex + 5 * b.ParentRoot + 7 * b.StateRoot
  ComputeSigningRoot r d := r + d
  Verify pk root sig := sig == pk + root

/-- A block for slot 10 by validator 2 (the scheduled proposer of slot 10) on
top of the block with root 7. Its signing root is 52, so under public key 102
the signature 154 verifies and any other does not. -/
def demoBlock (sig : BLSSignature) : SignedBeaconBlock Unit :=
  { Message := { Slot := 10, ProposerIndex := 2, ParentRoot := 7, StateRoot := 0, Body := () }
    Signature := sig }

/-- The seen-set as a list of (slot, proposer) pairs. -/
abbrev SeenSet := List (Zrnt.Slot × ValidatorIndex)

/-- A `BlockSeenFn`: membership test, no tracking. -/
def seenHas : SeenFn SeenSet :=
  fun slot proposer seen => (seen.contains (slot, proposer), seen)

/-- A `MarkBlockSeenFn` that inserts the pair and returns true iff it was
newly inserted. -/
def seenMarkNew : SeenFn SeenSet :=
  fun slot proposer seen =>
    if seen.contains (slot, proposer) then (false, seen)
    else (true, (slot, proposer) :: seen)

/-- A `MarkBlockSeenFn` that finds the pair already inserted (by a validation
running in parallel) and returns false, "not newly marked". -/
def seenMarkTaken : SeenFn SeenSet :=
  fun slot proposer seen =>
    (false, if seen.contains (slot, proposer) then seen else (slot, proposer) :: seen)

/-- A `MarkBlockSeenFn` after its doc comment: it returns true iff the pair
was previously already seen, and inserts the pair otherwise. -/
def seenMarkSeen : SeenFn SeenSet :=
  fun slot proposer seen =>
    if seen.contains (slot, proposer) then (true, seen)
    else (false, (slot, proposer) :: seen)

/-- A `MarkBlockSeenFn` after its doc comment that finds the pair inserted by
a validation running in parallel and returns true, "previously already seen". -/
def seenMarkSeenRaced : SeenFn SeenSet :=
  fun slot proposer seen =>
    (true, if seen.contains (slot, proposer) then seen else (slot, proposer) :: seen)

/-- Epochs context that knows a public key for every validator index; the
proposer of slot `s` is validator `s % 4`. -/
def wideEpc : EpochsContext where
  Pubkey i := some (100 + i)
  GetBeaconProposer s := if s < 64 then some (s % 4) else none

/-- The chain view of `demoGossip` with ancestry determinate-true, whose
blocks carry `wideEpc`. -/
def wideGossip : GossipValidator Unit :=
  { demoGossip (false, true) with
    ByBlockRoot := fun r =>
      if r = 7 then some ⟨9, some wideEpc⟩
      else if r = 3 then some ⟨8, some wideEpc⟩
      else none }

/-- A block for slot 16 (epoch 2) on top of the block with root 7 (slot 9,
epoch 1), with signature 0, which does not verify. -/
def crossEpochBlock (proposer : ValidatorIndex) : SignedBeaconBlock Unit :=
  { Message := { Slot := 16, ProposerIndex := proposer, ParentRoot := 7, StateRoot := 0,
                 Body := () }
    Signature := 0 }

/-- A block for slot 10 by validator 2 on top of the finalized block (root 3,
slot 8). -/
def onFinalizedBlock (sig : BLSSignature) : SignedBeaconBlock Unit :=
  { Message := { Slot := 10, ProposerIndex := 2, ParentRoot := 3, StateRoot := 0, Body := () }
    Signature := sig }

/-- Rules 1-5 are passed: the conditions under which `ValidateBeaconBlock`
arrives at its ancestry test. -/
structure ReachesAncestry {β σ : Type} (gv : GossipValidator β)
    (signedBlock : SignedBeaconBlock β) (hasBlock : SeenFn σ) (seen : σ)
    (parentRef : BlockRef) : Prop where
  rule1 : signedBlock.Message.Slot ≤ gv.SlotAfter gv.MAXIMUM_GOSSIP_CLOCK_DISPARITY
  rule2 : (hasBlock signedBlock.Message.Slot signedBlock.Message.ProposerIndex seen).1 = false
  rule3 : gv.ByBlockRoot signedBlock.Message.ParentRoot = some parentRef
  rule4 : parentRef.Slot < signedBlock.Message.Slot
  rule5 : gv.EpochStartSlot gv.Finalized.Epoch < signedBlock.Message.Slot

/-- The call is one of `hasBlock`. -/
def SeenCall.isHas : SeenCall → Bool
  | .hasBlock .. => true
  | .markBlock .. => false

/-- The call is one of `markBlock`. -/
def SeenCall.isMark : SeenCall → Bool
  | .hasBlock .. => false
  | .markBlock .. => true

/-! ## Block and epoch pipelines (`beacon/sharding/transition.go`) -/

/-- A sub-step of a transition: a Go function `func(..., state, ...) error`
on the mutable state view. The result is the error it returns (`none` is
`nil`) and the state it leaves. -/
abbrev SubStep (σ ε : Type) := σ → Option ε × σ

/-- What a call of `ProcessBlock` or `ProcessEpoch` leaves behind: the error
returned, the state after the call, and the sub-steps that were called, in
call order, each with the error it returned. -/
structure Run (σ ε S : Type) where
  Err : Option ε
  State : σ
  Applied : List (S × Option ε)
deriving DecidableEq, Repr

/-- Entry of a transition function: nothing called yet. -/
def Run.start {σ ε S : Type} (state : σ) : Run σ ε S :=
  ⟨none, state, []⟩

/-- The statement `if err := f(...); err != nil { return err }` following a
run: when the run has already returned, nothing happens; otherwise the
sub-step is called on the current state and its error becomes the run's. -/
def Run.andThen {σ ε S : Type} (r : Run σ ε S) (name : S) (f : SubStep σ ε) : Run σ ε S :=
  match r.Err with
  | some _ => r
  | none =>
    let out := f r.State
    ⟨out.1, out.2, r.Applied ++ [(name, out.1)]⟩

/-- The calls of `ProcessBlock` that return an error, from the header on. -/
inductive BlockStep where
  | header
  | randaoReveal
  | eth1Vote
  | checkLimits
  | proposerSlashings
  | attesterSlashings
  | attestations
  | deposits
  | voluntaryExits
  | executionPayload
deriving DecidableEq, Repr

/-- The functions `ProcessBlock` calls, for a block of type `B`. The
sub-steps take the block where the source passes a part of it
(`block.Header(spec)`, `body.RandaoReveal`, `body.Eth1Data`, the operation
lists, `&body.ExecutionPayload`); `Slot` is `state.Slot()`, `CheckLimits` is
`body.CheckLimits(spec)`, and `unexpectedBlockType` is the error built when
the envelope does not hold a `*SignedBeaconBlock`. -/
structure BlockDeps (σ ε B : Type) where
  unexpectedBlockType : ε
  Slot : σ → Except ε Zrnt.Slot
  GetBeaconProposer : Zrnt.Slot → Except ε ValidatorIndex
  ProcessHeader : B → ValidatorIndex → SubStep σ ε
  ProcessRandaoReveal : B → SubStep σ ε
  ProcessEth1Vote : B → SubStep σ ε
  CheckLimits : B → Option ε
  ProcessProposerSlashings : B → SubStep σ ε
  ProcessAttesterSlashings : B → SubStep σ ε
  ProcessAttestations : B → SubStep σ ε
  ProcessDeposits : B → SubStep σ ε
  ProcessVoluntaryExits : B → SubStep σ ε
  ProcessExecutionPayload : B → SubStep σ ε

/-- `func (state *BeaconStateView) ProcessBlock(ctx, spec, epc, benv) error`.
`signedBlock` is the result of the type assertion on `benv.SignedBlock`,
`none` when it fails. -/
def ProcessBlock {σ ε B : Type} (d : BlockDeps σ ε B) (state : σ) (signedBlock : Option B) :
    Run σ ε BlockStep :=
  match signedBlock with
  | none => ⟨some d.unexpectedBlockType, state, []⟩
  | some block =>
    match d.Slot state with
    | .error err => ⟨some err, state, []⟩
    | .ok slot =>
      match d.GetBeaconProposer slot with
      | .error err => ⟨some err, state, []⟩
      | .ok proposerIndex =>
        Run.start state
          |>.andThen .header (d.ProcessHeader block proposerIndex)
          |>.andThen .randaoReveal (d.ProcessRandaoReveal block)
          |>.andThen .eth1Vote (d.ProcessEth1Vote block)
          |>.andThen .checkLimits (fun s => (d.CheckLimits block, s))
          |>.andThen .proposerSlashings (d.ProcessProposerSlashings block)
          |>.andThen .attesterSlashings (d.ProcessAttesterSlashings block)
          |>.andThen .attestations (d.ProcessAttestations block)
          |>.andThen .deposits (d.ProcessDeposits block)
          |>.andThen .voluntaryExits (d.ProcessVoluntaryExits block)
          |>.andThen .executionPayload (d.ProcessExecutionPayload block)

/-- The error-returning calls of `ProcessBlock` in source order. -/
def blockStepOrder : List BlockStep :=
  [.header, .randaoReveal, .eth1Vote, .checkLimits, .proposerSlashings, .attesterSlashings,
   .attestations, .deposits, .voluntaryExits, .executionPayload]

/-- The eight block sub-steps of the block processor, in the order of the
specification. -/
def blockSubSteps : List BlockStep :=
  [.header, .randaoReveal, .eth1Vote, .proposerSlashings, .attesterSlashings,
   .attestations, .deposits, .voluntaryExits]

/-- The operation processing that follows the limit check. -/
def blockOperations : List BlockStep :=
  [.proposerSlashings, .attesterSlashings, .attestations, .deposits, .voluntaryExits,
   .executionPayload]

/-- The state-changing calls of `ProcessEpoch` that return an error. -/
inductive EpochStep where
  | pendingShardConfirmations
  | chargeConfirmedShardFees
  | resetPendingShardWork
  | justification
  | rewardsAndPenalties
  | registryUpdates
  | slashings
  | eth1DataReset
  | effectiveBalanceUpdates
  | slashingsReset
  | randaoMixesReset
  | historicalRootsUpdate
  | participationRecordUpdates
deriving DecidableEq, Repr

/-- The functions `ProcessEpoch` calls. `V`, `F` and `A` are the types of
`state.Validators()`, of the flattened validators and of the epoch attester
data; the justification stage takes the attester data, from which (with the
epochs context) the source builds its `JustificationStakeData`. -/
structure EpochDeps (σ ε V F A : Type) where
  ProcessPendingShardConfirmations : SubStep σ ε
  ChargeConfirmedShardFees : SubStep σ ε
  ResetPendingShardWork : SubStep σ ε
  Validators : σ → Except ε V
  FlattenValidators : V → Except ε F
  ComputeEpochAttesterData : F → σ → Except ε A
  ProcessEpochJustification : A → SubStep σ ε
  ProcessEpochRewardsAndPenalties : A → SubStep σ ε
  ProcessEpochRegistryUpdates : F → SubStep σ ε
  ProcessEpochSlashings : F → SubStep σ ε
  ProcessEth1DataReset : SubStep σ ε
  ProcessEffectiveBalanceUpdates : F → SubStep σ ε
  ProcessSlashingsReset : SubStep σ ε
  ProcessRandaoMixesReset : SubStep σ ε
  ProcessHistoricalRootsUpdate : SubStep σ ε
  ProcessParticipationRecordUpdates : SubStep σ ε

/-- `func (state *BeaconStateView) ProcessEpoch(ctx, spec, epc) error`. -/
def ProcessEpoch {σ ε V F A : Type} (d : EpochDeps σ ε V F A) (state : σ) :
    Run σ ε EpochStep :=
  let r := Run.start state
    |>.andThen .pendingShardConfirmations d.ProcessPendingShardConfirmations
    |>.andThen .chargeConfirmedShardFees d.ChargeConfirmedShardFees
    |>.andThen .resetPendingShardWork d.ResetPendingShardWork
  match r.Err with
  | some _ => r
  | none =>
    match d.Validators r.State with
    | .error err => { r with Err := some err }
    | .ok vals =>
      match d.FlattenValidators vals with
      | .error err => { r with Err := some err }
      | .ok flats =>
        match d.ComputeEpochAttesterData flats r.State with
        | .error err => { r with Err := some err }
        | .ok attesterData =>
          r |>.andThen .justification (d.ProcessEpochJustification attesterData)
            |>.andThen .rewardsAndPenalties (d.ProcessEpochRewardsAndPenalties attesterData)
            |>.andThen .registryUpdates (d.ProcessEpochRegistryUpdates flats)
            |>.andThen .slashings (d.ProcessEpochSlashings flats)
            |>.andThen .eth1DataReset d.ProcessEth1DataReset
            |>.andThen .effectiveBalanceUpdates (d.ProcessEffectiveBalanceUpdates flats)
            |>.andThen .slashingsReset d.ProcessSlashingsReset
            |>.andThen .randaoMixesReset d.ProcessRandaoMixesReset
            |>.andThen .historicalRootsUpdate d.ProcessHistoricalRootsUpdate
            |>.andThen .participationRecordUpdates d.ProcessParticipationRecordUpdates

/-- The state-changing calls of `ProcessEpoch` in source order. -/
def epochStepOrder : List EpochStep :=
  [.pendingShardConfirmations, .chargeConfirmedShardFees, .resetPendingShardWork,
   .justification, .rewardsAndPenalties, .registryUpdates, .slashings, .eth1DataReset,
   .effectiveBalanceUpdates, .slashingsReset, .randaoMixesReset, .historicalRootsUpdate,
   .participationRecordUpdates]

/-- The ten stages of the epoch pipeline, in the order of the specification. -/
def epochStages : List EpochStep :=
  [.justification, .rewardsAndPenalties, .registryUpdates, .slashings, .eth1DataReset,
   .effectiveBalanceUpdates, .slashingsReset, .randaoMixesReset, .historicalRootsUpdate,
   .participationRecordUpdates]

/-- The shape of a run over the calls `order`: the applied sub-steps are a
prefix of `order`; all returned `nil`, except that the last may have returned
the error the run returns; a run that returns `nil` applied all of `order`. -/
def Run.FailFast {σ ε S : Type} (r : Run σ ε S) (order : List S) : Prop :=
  ∃ done : List S,
    (r.Applied = done.map (fun n => (n, none)) ∧ done <+: order ∧
      (r.Err = none → done = order)) ∨
    (∃ n e, r.Applied = done.map (fun n => (n, none)) ++ [(n, some e)] ∧
      (done ++ [n]) <+: order ∧ r.Err = some e)

/-! ### Concrete pipelines for evaluation -/

/-- Error code of a block sub-step. -/
def BlockStep.code : BlockStep → Nat
  | .header => 1
  | .randaoReveal => 2
  | .eth1Vote => 3
  | .checkLimits => 4
  | .proposerSlashings => 5
  | .attesterSlashings => 6
  | .attestations => 7
  | .deposits => 8
  | .voluntaryExits => 9
  | .executionPayload => 10

/-- A sub-step that fails with its code when `fails` says so and otherwise
logs its name in the state. -/
def demoSubStep {S : Type} (fails : S → Bool) (code : S → Nat) (n : S) :
    SubStep (List S) Nat :=
  fun s => if fails n then (some (code n), s) else (none, s ++ [n])

/-- Block pipeline over a log of applied steps, with the sub-steps chosen by
`fails` returning their code as error. The slot is 5, the proposer 2. -/
def demoBlockDeps (fails : BlockStep → Bool) : BlockDeps (List BlockStep) Nat Unit where
  unexpectedBlockType := 100
  Slot _ := .ok 5
  GetBeaconProposer _ := .ok 2
  ProcessHeader _ _ := demoSubStep fails BlockStep.code .header
  ProcessRandaoReveal _ := demoSubStep fails BlockStep.code .randaoReveal
  ProcessEth1Vote _ := demoSubStep fails BlockStep.code .eth1Vote
  CheckLimits _ := if fails .checkLimits then some 4 else none
  ProcessProposerSlashings _ := demoSubStep fails BlockStep.code .proposerSlashings
  ProcessAttesterSlashings _ := demoSubStep fails BlockStep.code .attesterSlashings
  ProcessAttestations _ := demoSubStep fails BlockStep.code .attestations
  ProcessDeposits _ := demoSubStep fails BlockStep.code .deposits
  ProcessVoluntaryExits _ := demoSubStep fails BlockStep.code .voluntaryExits
  ProcessExecutionPayload _ := demoSubStep fails BlockStep.code .executionPayload

/-- Error code of an epoch stage. -/
def EpochStep.code : EpochStep → Nat
  | .pendingShardConfirmations => 21
  | .chargeConfirmedShardFees => 22
  | .resetPendingShardWork => 23
  | .justification => 1
  | .rewardsAndPenalties => 2
  | .registryUpdates => 3
  | .slashings => 4
  | .eth1DataReset => 5
  | .effectiveBalanceUpdates => 6
  | .slashingsReset => 7
  | .randaoMixesReset => 8
  | .historicalRootsUpdate => 9
  | .participationRecordUpdates => 10

/-- Epoch pipeline over a log of applied stages, with the stages chosen by
`fails` returning their code as error. -/
def demoEpochDeps (fails : EpochStep → Bool) :
    EpochDeps (List EpochStep) Nat Unit Unit Unit where
  ProcessPendingShardConfirmations :=
    demoSubStep fails EpochStep.code .pendingShardConfirmations
  ChargeConfirmedShardFees := demoSubStep fails EpochStep.code .chargeConfirmedShardFees
  ResetPendingShardWork := demoSubStep fails EpochStep.code .resetPendingShardWork
  Validators _ := .ok ()
  FlattenValidators _ := .ok ()
  ComputeEpochAttesterData _ _ := .ok ()
  ProcessEpochJustification _ := demoSubStep fails EpochStep.code .justification
  ProcessEpochRewardsAndPenalties _ := demoSubStep fails EpochStep.code .rewardsAndPenalties
  ProcessEpochRegistryUpdates _ := demoSubStep fails EpochStep.code .registryUpdates
  ProcessEpochSlashings _ := demoSubStep fails EpochStep.code .slashings
  ProcessEth1DataReset := demoSubStep fails EpochStep.code .eth1DataReset
  ProcessEffectiveBalanceUpdates _ :=
    demoSubStep fails EpochStep.code .effectiveBalanceUpdates
  ProcessSlashingsReset := demoSubStep fails EpochStep.code .slashingsReset
  ProcessRandaoMixesReset := demoSubStep fails EpochStep.code .randaoMixesReset
  ProcessHistoricalRootsUpdate := demoSubStep fails EpochStep.code .historicalRootsUpdate
  ProcessParticipationRecordUpdates :=
    demoSubStep fails EpochStep.code .participationRecordUpdates

/-! ## Theorems: block header processing -/

section Header

variable {ρ : Type}

/-- Unfolding of `Process` once the slot and parent-root checks are passed. -/
theorem Process_after_store (d : HeaderDeps ρ) (header : BeaconBlockHeader)
    (state : BeaconState ρ) (hs : header.Slot = state.Slot)
    (hp : header.ParentRoot = d.SigningRoot state.LatestBlockHeader) :
    header.Process d state =
      (let st : BeaconState ρ := { state with LatestBlockHeader := storedHeader header }
       match st.Validators[d.GetBeaconProposerIndex st]? with
       | none => (st, .indexPanic)
       | some proposer =>
         if proposer.Slashed then (st, .returned (some .slashedProposer))
         else if !d.BlsVerify proposer.Pubkey (d.SigningRoot header) header.Signature
             (d.GetDomain st d.DOMAIN_BEACON_PROPOSER (d.Epoch st)) then
           (st, .returned (some .signatureInvalid))
         else (st, .returned none)) := by
  simp [BeaconBlockHeader.Process, hs, hp]

/-- Whatever the outcome, the state after `Process` is the state before or
the state before with the header stored. -/
theorem Process_state_cases (d : HeaderDeps ρ) (header : BeaconBlockHeader)
    (state : BeaconState ρ) :
    (header.Process d state).1 = state ∨
    (header.Process d state).1 = { state with LatestBlockHeader := storedHeader header } := by
  by_cases hs : header.Slot = state.Slot
  · by_cases hp : header.ParentRoot = d.SigningRoot state.LatestBlockHeader
    · right
      rw [Process_after_store d header state hs hp]
      dsimp only
      split
      · rfl
      · split
        · rfl
        · split <;> rfl
    · left
      simp [BeaconBlockHeader.Process, hs, hp]
  · left
    simp [BeaconBlockHeader.Process, hs]

/-- An early error (slot or parent root mismatch) is returned before the
header is stored. -/
theorem Process_early_error (d : HeaderDeps ρ) (header : BeaconBlockHeader)
    (state : BeaconState ρ) (e : HeaderError)
    (he : (header.Process d state).2 = .returned (some e))
    (hk : e = .slotMismatch ∨ ∃ g w, e = .parentRootMismatch g w) :
    (header.Process d state).1 = state := by
  by_cases hs : header.Slot = state.Slot
  · by_cases hp : header.ParentRoot = d.SigningRoot state.LatestBlockHeader
    · exfalso
      rw [Process_after_store d header state hs hp] at he
      dsimp only at he
      split at he
      · simp at he
      · split at he
        · simp at he
          rcases hk with hk | ⟨g, w, hk⟩ <;> simp [hk] at he
        · split at he
          · simp at he
            rcases hk with hk | ⟨g, w, hk⟩ <;> simp [hk] at he
          · simp at he
    · simp [BeaconBlockHeader.Process, hs, hp]
  · simp [BeaconBlockHeader.Process, hs]

/-- A late error (slashed proposer or invalid signature) is returned after
the header is stored. -/
theorem Process_late_error (d : HeaderDeps ρ) (header : BeaconBlockHeader)
    (state : BeaconState ρ) (e : HeaderError)
    (he : (header.Process d state).2 = .returned (some e))
    (hk : e = .slashedProposer ∨ e = .signatureInvalid) :
    (header.Process d state).1 = { state with LatestBlockHeader := storedHeader header } := by
  by_cases hs : header.Slot = state.Slot
  · by_cases hp : header.ParentRoot = d.SigningRoot state.LatestBlockHeader
    · rw [Process_after_store d header state hs hp]
      dsimp only
      split
      · rfl
      · split
        · rfl
        · split <;> rfl
    · exfalso
      simp [BeaconBlockHeader.Process, hs, hp] at he
      rcases hk with hk | hk <;> simp [hk] at he
  · exfalso
    simp [BeaconBlockHeader.Process, hs] at he
    rcases hk with hk | hk <;> simp [hk] at he

/-- C3 (as stated, refuted): with a slashed scheduled proposer `Process`
returns the slashed-proposer error, yet `state.LatestBlockHeader` has been
overwritten with the new header, so the state is not the one before the call. -/
theorem C3_error_leaves_header_overwritten :
    ((demoHeader 533).Process demoDeps (demoState true)).2
        = .returned (some .slashedProposer) ∧
    ((demoHeader 533).Process demoDeps (demoState true)).1 ≠ demoState true ∧
    ((demoHeader 533).Process demoDeps (demoState true)).1.LatestBlockHeader
        = storedHeader (demoHeader 533) := by
  decide

/-- C3 (amended): when `Process` returns the slot-mismatch or the
parent-root-mismatch error the state after the call is the state before it;
when it returns the slashed-proposer or the invalid-signature error the state
after the call is the state before it with `LatestBlockHeader` replaced by the
stored form of the header, every other field unchanged. -/
theorem C3_error_state (d : HeaderDeps ρ) (header : BeaconBlockHeader)
    (state : BeaconState ρ) (e : HeaderError)
    (he : (header.Process d state).2 = .returned (some e)) :
    ((e = .slotMismatch ∨ ∃ g w, e = .parentRootMismatch g w) →
        (header.Process d state).1 = state) ∧
    ((e = .slashedProposer ∨ e = .signatureInvalid) →
        (header.Process d state).1 =
          { Slot := state.Slot
            LatestBlockHeader :=
              { Slot := header.Slot, ParentRoot := header.ParentRoot, StateRoot := 0,
                BodyRoot := header.BodyRoot, Signature := 0 }
            Validators := state.Validators
            Rest := state.Rest }) :=
  ⟨Process_early_error d header state e he, Process_late_error d header state e he⟩

/-- C3 (amended) at concrete inputs: a zero parent root is refused with the state
as it was; a wrong signature is refused with the header already stored. -/
theorem C3_error_state_witness :
    (({ demoHeader 533 with ParentRoot := 0 }).Process demoDeps (demoState false)).2
        = .returned (some (.parentRootMismatch 0 56)) ∧
    (({ demoHeader 533 with ParentRoot := 0 }).Process demoDeps (demoState false)).1
        = demoState false ∧
    ((demoHeader 0).Process demoDeps (demoState false)).2
        = .returned (some .signatureInvalid) ∧
    ((demoHeader 0).Process demoDeps (demoState false)).1
        = { Slot := 1
            LatestBlockHeader :=
              { Slot := 1, ParentRoot := 56, StateRoot := 0, BodyRoot := 9, Signature := 0 }
            Validators := (demoState false).Validators
            Rest := () } :=
  ⟨by decide,
   (C3_error_state demoDeps { demoHeader 533 with ParentRoot := 0 } (demoState false)
      (.parentRootMismatch 0 56) (by decide)).1 (Or.inr ⟨0, 56, rfl⟩),
   by decide,
   (C3_error_state demoDeps (demoHeader 0) (demoState false) .signatureInvalid
      (by decide)).2 (Or.inr rfl)⟩

/-- `Process` returns `nil` exactly when the four checks pass, the proposer
being looked up in the state that already holds the stored header. -/
theorem Process_nil_iff_stored (d : HeaderDeps ρ) (header : BeaconBlockHeader)
    (state : BeaconState ρ) :
    (header.Process d state).2 = .returned none ↔
      header.Slot = state.Slot ∧
      header.ParentRoot = d.SigningRoot state.LatestBlockHeader ∧
      ∃ proposer,
        state.Validators[d.GetBeaconProposerIndex
            { state with LatestBlockHeader := storedHeader header }]? = some proposer ∧
        proposer.Slashed = false ∧
        d.BlsVerify proposer.Pubkey (d.SigningRoot header) header.Signature
          (d.GetDomain { state with LatestBlockHeader := storedHeader header }
            d.DOMAIN_BEACON_PROPOSER
            (d.Epoch { state with LatestBlockHeader := storedHeader header })) = true := by
  by_cases hs : header.Slot = state.Slot
  · by_cases hp : header.ParentRoot = d.SigningRoot state.LatestBlockHeader
    · rw [Process_after_store d header state hs hp]
      dsimp only
      split
      · rename_i hnone
        simp [hs, hp, hnone]
      · rename_i proposer hsome
        by_cases hsl : proposer.Slashed = true
        · simp [hs, hp, hsome, hsl]
        · by_cases hv : d.BlsVerify proposer.Pubkey (d.SigningRoot header) header.Signature
              (d.GetDomain { state with LatestBlockHeader := storedHeader header }
                d.DOMAIN_BEACON_PROPOSER
                (d.Epoch { state with LatestBlockHeader := storedHeader header })) = true
          · simp [hs, hp, hsome, hsl, hv]
          · simp [hs, hp, hsome, hsl, hv]
    · simp [BeaconBlockHeader.Process, hs, hp]
  · simp [BeaconBlockHeader.Process, hs]

/-- The demo accessors read the slot only. -/
theorem demoDeps_ignoresLatestHeader : demoDeps.IgnoresLatestHeader := by
  intro s h
  exact ⟨rfl, rfl, fun _ _ => rfl⟩

/-- C4: `Process` returns `nil` if and only if the header's slot is the
state's slot, its parent root is the signing root of the state's latest block
header before the call, the validator at the state's beacon proposer index is
not slashed, and `BlsVerify` accepts the header's signing root and signature
under that validator's public key and the `DOMAIN_BEACON_PROPOSER` domain of
the state's epoch; and a slashed proposer always yields an error. The state
accessors are parameters, assumed not to read `LatestBlockHeader`. -/
theorem C4_Process_nil_iff (d : HeaderDeps ρ) (hd : d.IgnoresLatestHeader)
    (header : BeaconBlockHeader) (state : BeaconState ρ) :
    ((header.Process d state).2 = .returned none ↔
      header.Slot = state.Slot ∧
      header.ParentRoot = d.SigningRoot state.LatestBlockHeader ∧
      ∃ proposer,
        state.Validators[d.GetBeaconProposerIndex state]? = some proposer ∧
        proposer.Slashed = false ∧
        d.BlsVerify proposer.Pubkey (d.SigningRoot header) header.Signature
          (d.GetDomain state d.DOMAIN_BEACON_PROPOSER (d.Epoch state)) = true) ∧
    (∀ proposer, state.Validators[d.GetBeaconProposerIndex state]? = some proposer →
      proposer.Slashed = true →
      ∃ e, (header.Process d state).2 = .returned (some e)) := by
  obtain ⟨hi, he, hg⟩ := hd state (storedHeader header)
  constructor
  · rw [Process_nil_iff_stored d header state, hi, he, hg]
  · intro proposer hsome hsl
    by_cases hs : header.Slot = state.Slot
    · by_cases hp : header.ParentRoot = d.SigningRoot state.LatestBlockHeader
      · rw [Process_after_store d header state hs hp]
        dsimp only
        rw [hi, hsome]
        simp [hsl]
      · simp [BeaconBlockHeader.Process, hs, hp]
    · simp [BeaconBlockHeader.Process, hs]

/-- C4 at a concrete input: the slot-1 header signed with 533 is accepted by the
state whose proposer is not slashed, and the four conditions hold there. -/
theorem C4_Process_nil_iff_witness :
    demoDeps.IgnoresLatestHeader ∧
    ((demoHeader 533).Process demoDeps (demoState false)).2 = .returned none ∧
    (demoHeader 533).Slot = (demoState false).Slot ∧
    (demoHeader 533).ParentRoot = demoDeps.SigningRoot (demoState false).LatestBlockHeader ∧
    ∃ proposer,
      (demoState false).Validators[demoDeps.GetBeaconProposerIndex (demoState false)]?
        = some proposer ∧
      proposer.Slashed = false ∧
      demoDeps.BlsVerify proposer.Pubkey (demoDeps.SigningRoot (demoHeader 533))
        (demoHeader 533).Signature
        (demoDeps.GetDomain (demoState false) demoDeps.DOMAIN_BEACON_PROPOSER
          (demoDeps.Epoch (demoState false))) = true :=
  ⟨demoDeps_ignoresLatestHeader, by decide,
   (C4_Process_nil_iff demoDeps demoDeps_ignoresLatestHeader (demoHeader 533)
      (demoState false)).1.mp (by decide)⟩

/-- C5: when `Process` returns `nil`, the state's latest block header is
`{Slot: header.Slot, ParentRoot: header.ParentRoot, StateRoot: 0,
BodyRoot: header.BodyRoot, Signature: 0}` whatever the header's state root and
signature are, and its parent root is the signing root of the latest block
header the state held before the call. -/
theorem C5_Process_nil_latest_header (d : HeaderDeps ρ) (header : BeaconBlockHeader)
    (state : BeaconState ρ) (hnil : (header.Process d state).2 = .returned none) :
    (header.Process d state).1.LatestBlockHeader =
      { Slot := header.Slot, ParentRoot := header.ParentRoot, StateRoot := 0,
        BodyRoot := header.BodyRoot, Signature := 0 } ∧
    (header.Process d state).1.LatestBlockHeader.ParentRoot =
      d.SigningRoot state.LatestBlockHeader := by
  obtain ⟨hs, hp, -⟩ := (Process_nil_iff_stored d header state).mp hnil
  have hst : (header.Process d state).1 =
      { state with LatestBlockHeader := storedHeader header } := by
    rw [Process_after_store d header state hs hp]
    dsimp only
    split
    · rfl
    · split
      · rfl
      · split <;> rfl
  rw [hst]
  exact ⟨rfl, hp⟩

/-- C5 at a concrete input: the accepted slot-1 header has state root 77 and
signature 533; the stored header has both zeroed. -/
theorem C5_Process_nil_latest_header_witness :
    ((demoHeader 533).Process demoDeps (demoState false)).2 = .returned none ∧
    ((demoHeader 533).Process demoDeps (demoState false)).1.LatestBlockHeader =
      { Slot := 1, ParentRoot := 56, StateRoot := 0, BodyRoot := 9, Signature := 0 } ∧
    ((demoHeader 533).Process demoDeps (demoState false)).1.LatestBlockHeader.ParentRoot =
      demoDeps.SigningRoot demoGenesisHeader :=
  ⟨by decide,
   C5_Process_nil_latest_header demoDeps (demoHeader 533) (demoState false) (by decide)⟩

/-- C6: whether `Process` returns `nil`, returns an error or panics on the
proposer lookup, the slot, the validator registry and every other field of
the state besides `LatestBlockHeader` are the same after the call as before. -/
theorem C6_Process_frame (d : HeaderDeps ρ) (header : BeaconBlockHeader)
    (state : BeaconState ρ) :
    (header.Process d state).1.Slot = state.Slot ∧
    (header.Process d state).1.Validators = state.Validators ∧
    (header.Process d state).1.Rest = state.Rest ∧
    (header.Process d state).1 =
      { state with LatestBlockHeader := (header.Process d state).1.LatestBlockHeader } := by
  rcases Process_state_cases d header state with h | h <;> rw [h] <;>
    exact ⟨rfl, rfl, rfl, rfl⟩

end Header

/-! ## Theorems: gossip validation -/

section Gossip

variable {β σ : Type}

/-- C8: a block whose slot is greater than
`SlotAfter(MAXIMUM_GOSSIP_CLOCK_DISPARITY)` is answered with IGNORE and a
non-nil diagnostic, whatever the callbacks, the chain view and the verifier
are; neither callback is called. -/
theorem C8_future_slot_ignored (gv : GossipValidator β) (signedBlock : SignedBeaconBlock β)
    (hasBlock markBlock : SeenFn σ) (seen : σ)
    (hfuture : gv.SlotAfter gv.MAXIMUM_GOSSIP_CLOCK_DISPARITY < signedBlock.Message.Slot) :
    (gv.ValidateBeaconBlock signedBlock hasBlock markBlock seen).Value.Result = .IGNORE ∧
    (gv.ValidateBeaconBlock signedBlock hasBlock markBlock seen).Value.Err =
      some (.laterThanMaxSlot signedBlock.Message.Slot
        (gv.SlotAfter gv.MAXIMUM_GOSSIP_CLOCK_DISPARITY)) ∧
    (gv.ValidateBeaconBlock signedBlock hasBlock markBlock seen).Value.Err ≠ none ∧
    (gv.ValidateBeaconBlock signedBlock hasBlock markBlock seen).Calls = [] := by
  simp [GossipValidator.ValidateBeaconBlock, hfuture]

/-- C8 at a concrete input: current slot 20, block at slot 30 with a valid parent. -/
theorem C8_future_slot_ignored_witness :
    (demoGossip (false, true)).SlotAfter (demoGossip (false, true)).MAXIMUM_GOSSIP_CLOCK_DISPARITY
      < 30 ∧
    ((demoGossip (false, true)).ValidateBeaconBlock
      { Message := { Slot := 30, ProposerIndex := 2, ParentRoot := 7, StateRoot := 0, Body := () }
        Signature := 0 } seenHas seenMarkNew []).Value.Result = .IGNORE :=
  ⟨by decide,
   (C8_future_slot_ignored (demoGossip (false, true))
      { Message := { Slot := 30, ProposerIndex := 2, ParentRoot := 7, StateRoot := 0, Body := () }
        Signature := 0 } seenHas seenMarkNew [] (by decide)).1⟩

/-- C9: a block that passes rules 1-2 and whose parent root is unknown to
`Chain.ByBlockRoot` is answered with IGNORE (so not with REJECT), whatever
the finalized checkpoint, the ancestry answer, the verifier and the proposer
schedule are. -/
theorem C9_unknown_parent_ignored (gv : GossipValidator β) (signedBlock : SignedBeaconBlock β)
    (hasBlock markBlock : SeenFn σ) (seen : σ)
    (h1 : signedBlock.Message.Slot ≤ gv.SlotAfter gv.MAXIMUM_GOSSIP_CLOCK_DISPARITY)
    (h2 : (hasBlock signedBlock.Message.Slot signedBlock.Message.ProposerIndex seen).1 = false)
    (hparent : gv.ByBlockRoot signedBlock.Message.ParentRoot = none) :
    (gv.ValidateBeaconBlock signedBlock hasBlock markBlock seen).Value =
      ⟨.IGNORE, some (.unavailableParent signedBlock.Message.ParentRoot)⟩ ∧
    (gv.ValidateBeaconBlock signedBlock hasBlock markBlock seen).Value.Result ≠ .REJECT := by
  have h1' : ¬ gv.SlotAfter gv.MAXIMUM_GOSSIP_CLOCK_DISPARITY < signedBlock.Message.Slot :=
    Nat.not_lt.mpr h1
  simp [GossipValidator.ValidateBeaconBlock, h1', h2, hparent]

/-- C9 at a concrete input: parent root 99 is not in the chain view. -/
theorem C9_unknown_parent_ignored_witness :
    (demoGossip (false, false)).ByBlockRoot 99 = none ∧
    ((demoGossip (false, false)).ValidateBeaconBlock
      { Message := { Slot := 10, ProposerIndex := 3, ParentRoot := 99, StateRoot := 0, Body := () }
        Signature := 0 } seenHas seenMarkNew []).Value = ⟨.IGNORE, some (.unavailableParent 99)⟩ :=
  ⟨rfl,
   (C9_unknown_parent_ignored (demoGossip (false, false))
      { Message := { Slot := 10, ProposerIndex := 3, ParentRoot := 99, StateRoot := 0, Body := () }
        Signature := 0 } seenHas seenMarkNew [] (by decide) (by decide) rfl).1⟩

/-- C7: for a block that passes rules 1-5, an undeterminable answer of
`Chain.IsAncestor(block.parent_root, finalized root)` gives IGNORE, and a
determinate "not an ancestor" with a parent root other than the finalized
root gives REJECT. -/
theorem C7_ancestry_rule (gv : GossipValidator β) (signedBlock : SignedBeaconBlock β)
    (hasBlock markBlock : SeenFn σ) (seen : σ) (parentRef : BlockRef)
    (h1 : signedBlock.Message.Slot ≤ gv.SlotAfter gv.MAXIMUM_GOSSIP_CLOCK_DISPARITY)
    (h2 : (hasBlock signedBlock.Message.Slot signedBlock.Message.ProposerIndex seen).1 = false)
    (h3 : gv.ByBlockRoot signedBlock.Message.ParentRoot = some parentRef)
    (h4 : parentRef.Slot < signedBlock.Message.Slot)
    (h5 : gv.EpochStartSlot gv.Finalized.Epoch < signedBlock.Message.Slot) :
    ((gv.IsAncestor signedBlock.Message.ParentRoot gv.Finalized.Root).1 = true →
      (gv.ValidateBeaconBlock signedBlock hasBlock markBlock seen).Value =
        ⟨.IGNORE, some (.ancestryUnknown signedBlock.Message.ParentRoot gv.Finalized.Root)⟩) ∧
    ((gv.IsAncestor signedBlock.Message.ParentRoot gv.Finalized.Root).1 = false →
      (gv.IsAncestor signedBlock.Message.ParentRoot gv.Finalized.Root).2 = false →
      signedBlock.Message.ParentRoot ≠ gv.Finalized.Root →
      (gv.ValidateBeaconBlock signedBlock hasBlock markBlock seen).Value =
        ⟨.REJECT,
          some (.notInFinalizedSubtree signedBlock.Message.ParentRoot gv.Finalized.Root)⟩) := by
  have h1' : ¬ gv.SlotAfter gv.MAXIMUM_GOSSIP_CLOCK_DISPARITY < signedBlock.Message.Slot :=
    Nat.not_lt.mpr h1
  have h4' : ¬ signedBlock.Message.Slot ≤ parentRef.Slot := Nat.not_le.mpr h4
  have h5' : ¬ signedBlock.Message.Slot ≤ gv.EpochStartSlot gv.Finalized.Epoch :=
    Nat.not_le.mpr h5
  constructor
  · intro hunk
    simp [GossipValidator.ValidateBeaconBlock, h1', h2, h3, h4', h5', hunk]
  · intro hdet hnot hne
    simp [GossipValidator.ValidateBeaconBlock, h1', h2, h3, h4', h5', hdet, hnot, hne]

/-- C7 at concrete inputs: the block on parent 7 is ignored when ancestry is
undeterminable and rejected when parent 7 is determined not to descend from
the finalized root 3. -/
theorem C7_ancestry_rule_witness :
    ((demoGossip (true, false)).ValidateBeaconBlock (demoBlock 0) seenHas seenMarkNew []).Value
      = ⟨.IGNORE, some (.ancestryUnknown 7 3)⟩ ∧
    ((demoGossip (false, false)).ValidateBeaconBlock (demoBlock 0) seenHas seenMarkNew []).Value
      = ⟨.REJECT, some (.notInFinalizedSubtree 7 3)⟩ :=
  ⟨(C7_ancestry_rule (demoGossip (true, false)) (demoBlock 0) seenHas seenMarkNew []
      ⟨9, some demoEpc⟩ (by decide) (by decide) rfl (by decide) (by decide)).1
      (by decide),
   (C7_ancestry_rule (demoGossip (false, false)) (demoBlock 0) seenHas seenMarkNew []
      ⟨9, some demoEpc⟩ (by decide) (by decide) rfl (by decide) (by decide)).2
      (by decide) (by decide) (by decide)⟩

/-- Unfolding of `ValidateBeaconBlock` at the signature test. -/
theorem Validate_signature_step (gv : GossipValidator β) (signedBlock : SignedBeaconBlock β)
    (hasBlock markBlock : SeenFn σ) (seen : σ) (parentRef : BlockRef)
    (parentEpc : EpochsContext) (pub : BLSPubkey) (domain : BLSDomain)
    (hr : ReachesSignature gv signedBlock hasBlock seen parentRef parentEpc pub domain) :
    gv.ValidateBeaconBlock signedBlock hasBlock markBlock seen =
      (let block := signedBlock.Message
       let has := hasBlock block.Slot block.ProposerIndex seen
       let calls := [SeenCall.hasBlock block.Slot block.ProposerIndex]
       if gv.Verify pub (gv.ComputeSigningRoot (gv.HashTreeRoot block) domain)
           signedBlock.Signature then
         ⟨⟨.REJECT, some .invalidSignature⟩, has.2, calls⟩
       else
         let mark := markBlock block.Slot block.ProposerIndex has.2
         let calls := calls ++ [SeenCall.markBlock block.Slot block.ProposerIndex]
         if !mark.1 then
           ⟨⟨.IGNORE, some (.alreadySeenOnMark block.Slot block.ProposerIndex)⟩, mark.2, calls⟩
         else
           let lookup : Option ValidatorIndex :=
             if gv.SlotToEpoch block.Slot = gv.SlotToEpoch parentRef.Slot then
               parentEpc.GetBeaconProposer block.Slot
             else some 1234
           match lookup with
           | none => ⟨⟨.IGNORE, some (.noProposer block.Slot)⟩, mark.2, calls⟩
           | some proposer =>
             if proposer ≠ block.ProposerIndex then
               ⟨⟨.REJECT, some (.wrongProposer proposer block.ProposerIndex)⟩, mark.2, calls⟩
             else ⟨⟨.ACCEPT, none⟩, mark.2, calls⟩) := by
  obtain ⟨h1, h2, h3, h4, h5, ⟨h6, h6'⟩, hepc, hpub, hdom⟩ := hr
  have h1' : ¬ gv.SlotAfter gv.MAXIMUM_GOSSIP_CLOCK_DISPARITY < signedBlock.Message.Slot :=
    Nat.not_lt.mpr h1
  have h4' : ¬ parentRef.Slot ≥ signedBlock.Message.Slot := Nat.not_le.mpr h4
  have h5' : ¬ signedBlock.Message.Slot ≤ gv.EpochStartSlot gv.Finalized.Epoch :=
    Nat.not_le.mpr h5
  have hr6 : (!(gv.IsAncestor signedBlock.Message.ParentRoot gv.Finalized.Root).2 &&
      signedBlock.Message.ParentRoot != gv.Finalized.Root) = false := by
    rcases h6' with h | h <;> simp [h]
  unfold GossipValidator.ValidateBeaconBlock
  simp only [h3, hepc, hpub, hdom]
  rw [if_neg h1', if_neg (by simp [h2]), if_neg h4', if_neg h5', if_neg (by simp [h6]),
    if_neg (by simp [hr6])]

/-- The signature step: for a block that passes rules 1-6 and whose parent
context, proposer public key and signing domain resolve, a signature that
`Verify` accepts is answered with REJECT "invalid block signature", before
`markBlock` is called. -/
theorem Validate_verified_rejected (gv : GossipValidator β) (signedBlock : SignedBeaconBlock β)
    (hasBlock markBlock : SeenFn σ) (seen : σ) (parentRef : BlockRef)
    (parentEpc : EpochsContext) (pub : BLSPubkey) (domain : BLSDomain)
    (hr : ReachesSignature gv signedBlock hasBlock seen parentRef parentEpc pub domain)
    (hver : gv.Verify pub (gv.ComputeSigningRoot (gv.HashTreeRoot signedBlock.Message) domain)
      signedBlock.Signature = true) :
    (gv.ValidateBeaconBlock signedBlock hasBlock markBlock seen).Value =
      ⟨.REJECT, some .invalidSignature⟩ ∧
    (gv.ValidateBeaconBlock signedBlock hasBlock markBlock seen).Calls =
      [.hasBlock signedBlock.Message.Slot signedBlock.Message.ProposerIndex] := by
  rw [Validate_signature_step gv signedBlock hasBlock markBlock seen parentRef parentEpc pub
    domain hr]
  simp [hver]

/-- The seen-marking step: for a block that passes rules 1-6, whose parent
context, public key and domain resolve and whose signature `Verify` does not
accept, `markBlock` is called; when it returns false the answer is IGNORE,
when it returns true the answer is that of the proposer check. -/
theorem Validate_unverified_marked (gv : GossipValidator β) (signedBlock : SignedBeaconBlock β)
    (hasBlock markBlock : SeenFn σ) (seen : σ) (parentRef : BlockRef)
    (parentEpc : EpochsContext) (pub : BLSPubkey) (domain : BLSDomain)
    (hr : ReachesSignature gv signedBlock hasBlock seen parentRef parentEpc pub domain)
    (hver : gv.Verify pub (gv.ComputeSigningRoot (gv.HashTreeRoot signedBlock.Message) domain)
      signedBlock.Signature = false) :
    ((markBlock signedBlock.Message.Slot signedBlock.Message.ProposerIndex
        (hasBlock signedBlock.Message.Slot signedBlock.Message.ProposerIndex seen).2).1 = false →
      (gv.ValidateBeaconBlock signedBlock hasBlock markBlock seen).Value =
        ⟨.IGNORE, some (.alreadySeenOnMark signedBlock.Message.Slot
          signedBlock.Message.ProposerIndex)⟩) ∧
    ((markBlock signedBlock.Message.Slot signedBlock.Message.ProposerIndex
        (hasBlock signedBlock.Message.Slot signedBlock.Message.ProposerIndex seen).2).1 = true →
      (gv.ValidateBeaconBlock signedBlock hasBlock markBlock seen).Value =
        match (if gv.SlotToEpoch signedBlock.Message.Slot = gv.SlotToEpoch parentRef.Slot then
            parentEpc.GetBeaconProposer signedBlock.Message.Slot
          else some 1234) with
        | none => ⟨.IGNORE, some (.noProposer signedBlock.Message.Slot)⟩
        | some proposer =>
          if proposer ≠ signedBlock.Message.ProposerIndex then
            ⟨.REJECT, some (.wrongProposer proposer signedBlock.Message.ProposerIndex)⟩
          else ⟨.ACCEPT, none⟩) := by
  rw [Validate_signature_step gv signedBlock hasBlock markBlock seen parentRef parentEpc pub
    domain hr]
  constructor
  · intro hm
    simp [hver, hm]
  · intro hm
    simp only [hver, hm]
    generalize (if gv.SlotToEpoch signedBlock.Message.Slot = gv.SlotToEpoch parentRef.Slot then
        parentEpc.GetBeaconProposer signedBlock.Message.Slot
      else some 1234) = lookup
    cases lookup with
    | none => simp
    | some p =>
      by_cases hp : p = signedBlock.Message.ProposerIndex <;> simp [hp]

/-- C1 (the code at the failing input): the block for slot 10 passes rules
1-6, its parent context, public key (102) and domain (1) resolve, and
`Verify` returns false for its signature 0; `ValidateBeaconBlock` does not
answer REJECT, it marks the pair as seen and answers ACCEPT. -/
theorem C1_unverified_block_accepted :
    ReachesSignature (demoGossip (false, true)) (demoBlock 0) seenHas []
      ⟨9, some demoEpc⟩ demoEpc 102 1 ∧
    (demoGossip (false, true)).Verify 102
      ((demoGossip (false, true)).ComputeSigningRoot
        ((demoGossip (false, true)).HashTreeRoot (demoBlock 0).Message) 1)
      (demoBlock 0).Signature = false ∧
    ((demoGossip (false, true)).ValidateBeaconBlock (demoBlock 0) seenHas seenMarkNew []).Value
      = ⟨.ACCEPT, none⟩ ∧
    ((demoGossip (false, true)).ValidateBeaconBlock (demoBlock 0) seenHas seenMarkNew []).Seen
      = [(10, 2)] :=
  ⟨⟨by decide, by decide, rfl, by decide, by decide, by decide, rfl, rfl, rfl⟩,
   by decide, by decide, by decide⟩

/-- C2 (the code at the failing input): for the block for slot 10 signed with
154 no rule of the table fails (slot 10 is not after slot 20, the pair is not
seen, the parent is found at slot 9, 10 is after the finalized start slot 8,
ancestry is determinate-true, key and domain resolve and the signature
verifies, `markBlock` would return true, the parent's context is of the same
epoch and schedules validator 2 for slot 10), yet `ValidateBeaconBlock`
answers REJECT "invalid block signature" and not ACCEPT. -/
theorem C2_valid_block_rejected :
    ReachesSignature (demoGossip (false, true)) (demoBlock 154) seenHas []
      ⟨9, some demoEpc⟩ demoEpc 102 1 ∧
    (demoGossip (false, true)).IsAncestor 7 3 = (false, true) ∧
    (demoGossip (false, true)).Verify 102
      ((demoGossip (false, true)).ComputeSigningRoot
        ((demoGossip (false, true)).HashTreeRoot (demoBlock 154).Message) 1)
      (demoBlock 154).Signature = true ∧
    (seenMarkNew 10 2 (seenHas 10 2 []).2).1 = true ∧
    (demoGossip (false, true)).SlotToEpoch 10 = (demoGossip (false, true)).SlotToEpoch 9 ∧
    demoEpc.GetBeaconProposer 10 = some (demoBlock 154).Message.ProposerIndex ∧
    ((demoGossip (false, true)).ValidateBeaconBlock (demoBlock 154) seenHas seenMarkNew []).Value
      = ⟨.REJECT, some .invalidSignature⟩ :=
  ⟨⟨by decide, by decide, rfl, by decide, by decide, by decide, rfl, rfl, rfl⟩,
   by decide, by decide, by decide, by decide, by decide, by decide⟩

/-- A call that no check of rules 1-7 ends has passed rules 1-6, resolved
the parent's epochs context, the public key and the domain, and got `false`
from `Verify`: these are the calls that arrive at `markBlock`. -/
theorem Validate_passes_seven (gv : GossipValidator β) (signedBlock : SignedBeaconBlock β)
    (hasBlock markBlock : SeenFn σ) (seen : σ)
    (hpass : (gv.ValidateBeaconBlock signedBlock hasBlock markBlock seen).PassesRules 7) :
    ∃ parentRef parentEpc pub domain,
      ReachesSignature gv signedBlock hasBlock seen parentRef parentEpc pub domain ∧
      gv.Verify pub (gv.ComputeSigningRoot (gv.HashTreeRoot signedBlock.Message) domain)
        signedBlock.Signature = false := by
  unfold GossipValidator.ValidateBeaconBlock at hpass
  dsimp only at hpass
  by_cases h1 : gv.SlotAfter gv.MAXIMUM_GOSSIP_CLOCK_DISPARITY < signedBlock.Message.Slot
  · rw [if_pos h1] at hpass
    exact absurd (hpass _ rfl) (by simp [GossipError.rule])
  rw [if_neg h1] at hpass
  by_cases h2 : (hasBlock signedBlock.Message.Slot signedBlock.Message.ProposerIndex seen).1 = true
  · rw [if_pos h2] at hpass
    exact absurd (hpass _ rfl) (by simp [GossipError.rule])
  rw [if_neg h2] at hpass
  cases h3 : gv.ByBlockRoot signedBlock.Message.ParentRoot with
  | none =>
    rw [h3] at hpass
    exact absurd (hpass _ rfl) (by simp [GossipError.rule])
  | some parentRef =>
    rw [h3] at hpass
    dsimp only at hpass
    by_cases h4 : parentRef.Slot ≥ signedBlock.Message.Slot
    · rw [if_pos h4] at hpass
      exact absurd (hpass _ rfl) (by simp [GossipError.rule])
    rw [if_neg h4] at hpass
    by_cases h5 : signedBlock.Message.Slot ≤ gv.EpochStartSlot gv.Finalized.Epoch
    · rw [if_pos h5] at hpass
      exact absurd (hpass _ rfl) (by simp [GossipError.rule])
    rw [if_neg h5] at hpass
    by_cases h6 : (gv.IsAncestor signedBlock.Message.ParentRoot gv.Finalized.Root).1 = true
    · rw [if_pos h6] at hpass
      exact absurd (hpass _ rfl) (by simp [GossipError.rule])
    rw [if_neg h6] at hpass
    by_cases h6' : (!(gv.IsAncestor signedBlock.Message.ParentRoot gv.Finalized.Root).2 &&
        signedBlock.Message.ParentRoot != gv.Finalized.Root) = true
    · rw [if_pos h6'] at hpass
      exact absurd (hpass _ rfl) (by simp [GossipError.rule])
    rw [if_neg h6'] at hpass
    cases hepc : parentRef.EpochsContext with
    | none =>
      rw [hepc] at hpass
      exact absurd (hpass _ rfl) (by simp [GossipError.rule])
    | some parentEpc =>
      rw [hepc] at hpass
      dsimp only at hpass
      cases hpub : parentEpc.Pubkey signedBlock.Message.ProposerIndex with
      | none =>
        rw [hpub] at hpass
        exact absurd (hpass _ rfl) (by simp [GossipError.rule])
      | some pub =>
        rw [hpub] at hpass
        dsimp only at hpass
        cases hdom : gv.GetDomain gv.DOMAIN_BEACON_PROPOSER
            (gv.SlotToEpoch signedBlock.Message.Slot) with
        | none =>
          rw [hdom] at hpass
          exact absurd (hpass _ rfl) (by simp [GossipError.rule])
        | some domain =>
          rw [hdom] at hpass
          dsimp only at hpass
          by_cases hver : gv.Verify pub
              (gv.ComputeSigningRoot (gv.HashTreeRoot signedBlock.Message) domain)
              signedBlock.Signature = true
          · rw [if_pos hver] at hpass
            exact absurd (hpass _ rfl) (by simp [GossipError.rule])
          refine ⟨parentRef, parentEpc, pub, domain,
            ⟨Nat.not_lt.mp h1, by simpa using h2, h3, Nat.not_le.mp h4, Nat.not_le.mp h5,
              ⟨by simpa using h6, ?_⟩, hepc, hpub, hdom⟩, by simpa using hver⟩
          by_cases ha : (gv.IsAncestor signedBlock.Message.ParentRoot gv.Finalized.Root).2 = true
          · exact Or.inl ha
          · right
            by_contra hne
            apply h6'
            simp [ha, hne]

/-- The test of `markBlock` at line 81, for a call that no check of rules
1-7 ends (by `Validate_passes_seven` one in which `Verify` returned false):
`markBlock` returning false gives IGNORE, and returning true leaves the
outcome to the proposer check alone: IGNORE when the proposer lookup fails,
REJECT when the expected proposer differs from `block.proposer_index`, ACCEPT
otherwise. -/
theorem Validate_mark_polarity (gv : GossipValidator β) (signedBlock : SignedBeaconBlock β)
    (hasBlock markBlock : SeenFn σ) (seen : σ)
    (hpass : (gv.ValidateBeaconBlock signedBlock hasBlock markBlock seen).PassesRules 7) :
    ((markBlock signedBlock.Message.Slot signedBlock.Message.ProposerIndex
        (hasBlock signedBlock.Message.Slot signedBlock.Message.ProposerIndex seen).2).1 = false →
      (gv.ValidateBeaconBlock signedBlock hasBlock markBlock seen).Value =
        ⟨.IGNORE, some (.alreadySeenOnMark signedBlock.Message.Slot
          signedBlock.Message.ProposerIndex)⟩) ∧
    ((markBlock signedBlock.Message.Slot signedBlock.Message.ProposerIndex
        (hasBlock signedBlock.Message.Slot signedBlock.Message.ProposerIndex seen).2).1 = true →
      ∃ parentRef parentEpc,
        gv.ByBlockRoot signedBlock.Message.ParentRoot = some parentRef ∧
        parentRef.EpochsContext = some parentEpc ∧
        (gv.ValidateBeaconBlock signedBlock hasBlock markBlock seen).Value =
          match (if gv.SlotToEpoch signedBlock.Message.Slot = gv.SlotToEpoch parentRef.Slot then
              parentEpc.GetBeaconProposer signedBlock.Message.Slot
            else some 1234) with
          | none => ⟨.IGNORE, some (.noProposer signedBlock.Message.Slot)⟩
          | some proposer =>
            if proposer ≠ signedBlock.Message.ProposerIndex then
              ⟨.REJECT, some (.wrongProposer proposer signedBlock.Message.ProposerIndex)⟩
            else ⟨.ACCEPT, none⟩) := by
  obtain ⟨parentRef, parentEpc, pub, domain, hr, hver⟩ :=
    Validate_passes_seven gv signedBlock hasBlock markBlock seen hpass
  have hm := Validate_unverified_marked gv signedBlock hasBlock markBlock seen parentRef
    parentEpc pub domain hr hver
  exact ⟨hm.1, fun h => ⟨parentRef, parentEpc, hr.rule3, hr.context, hm.2 h⟩⟩

/-- The `markBlock` test at a concrete input: the slot-10 block with the
non-verifying signature 0 gets past rules 1-7; with a `markBlock` that returns
false the answer is IGNORE, with one that returns true the proposer check
decides and accepts the scheduled proposer 2. -/
theorem Validate_mark_polarity_example :
    ((demoGossip (false, true)).ValidateBeaconBlock (demoBlock 0) seenHas
      seenMarkTaken []).PassesRules 7 ∧
    (seenMarkTaken 10 2 (seenHas 10 2 []).2).1 = false ∧
    ((demoGossip (false, true)).ValidateBeaconBlock (demoBlock 0) seenHas
      seenMarkTaken []).Value = ⟨.IGNORE, some (.alreadySeenOnMark 10 2)⟩ ∧
    ((demoGossip (false, true)).ValidateBeaconBlock (demoBlock 0) seenHas
      seenMarkNew []).PassesRules 7 ∧
    (seenMarkNew 10 2 (seenHas 10 2 []).2).1 = true ∧
    ((demoGossip (false, true)).ValidateBeaconBlock (demoBlock 0) seenHas
      seenMarkNew []).Value = ⟨.ACCEPT, none⟩ :=
  have hpass : ((demoGossip (false, true)).ValidateBeaconBlock (demoBlock 0) seenHas
      seenMarkTaken []).PassesRules 7 := by
    intro e he
    have hv : ((demoGossip (false, true)).ValidateBeaconBlock (demoBlock 0) seenHas
        seenMarkTaken []).Value.Err = some (.alreadySeenOnMark 10 2) := by decide
    rw [hv] at he
    cases he
    decide
  have hpass' : ((demoGossip (false, true)).ValidateBeaconBlock (demoBlock 0) seenHas
      seenMarkNew []).PassesRules 7 := by
    intro e he
    have hv : ((demoGossip (false, true)).ValidateBeaconBlock (demoBlock 0) seenHas
        seenMarkNew []).Value.Err = none := by decide
    rw [hv] at he
    cases he
  ⟨hpass, by decide,
   (Validate_mark_polarity (demoGossip (false, true)) (demoBlock 0) seenHas seenMarkTaken []
      hpass).1 (by decide),
   hpass', by decide,
   by
     obtain ⟨parentRef, parentEpc, h3, hc, hv⟩ :=
       (Validate_mark_polarity (demoGossip (false, true)) (demoBlock 0) seenHas seenMarkNew []
         hpass').2 (by decide)
     have h3' : (demoGossip (false, true)).ByBlockRoot (demoBlock 0).Message.ParentRoot
         = some ⟨9, some demoEpc⟩ := rfl
     rw [h3'] at h3
     cases h3
     cases hc
     exact hv.trans (by decide)⟩

/-- C10 (the code at the failing input): the block for slot 10 signed with
154 passes rules 1-7 (rules 1-6 hold, key and domain resolve, the signature
verifies) and `markBlock` returns false, "not newly marked";
`ValidateBeaconBlock` has answered REJECT "invalid block signature" at the
signature test, does not call `markBlock` and does not answer IGNORE. -/
theorem C10_verified_block_not_ignored :
    ReachesSignature (demoGossip (false, true)) (demoBlock 154) seenHas []
      ⟨9, some demoEpc⟩ demoEpc 102 1 ∧
    (demoGossip (false, true)).Verify 102
      ((demoGossip (false, true)).ComputeSigningRoot
        ((demoGossip (false, true)).HashTreeRoot (demoBlock 154).Message) 1)
      (demoBlock 154).Signature = true ∧
    (seenMarkTaken 10 2 (seenHas 10 2 []).2).1 = false ∧
    ((demoGossip (false, true)).ValidateBeaconBlock (demoBlock 154) seenHas
      seenMarkTaken []).Value = ⟨.REJECT, some .invalidSignature⟩ ∧
    ((demoGossip (false, true)).ValidateBeaconBlock (demoBlock 154) seenHas
      seenMarkTaken []).Value.Result ≠ .IGNORE ∧
    ((demoGossip (false, true)).ValidateBeaconBlock (demoBlock 154) seenHas
      seenMarkTaken []).Calls = [.hasBlock 10 2] :=
  ⟨⟨by decide, by decide, rfl, by decide, by decide, by decide, rfl, rfl, rfl⟩,
   by decide, by decide, by decide, by decide, by decide⟩

end Gossip

/-! ## Theorems: the transition pipelines -/

section Pipeline

variable {σ ε S : Type}

/-- A run that returned an error before any call has the fail-fast shape
for every order. -/
theorem Run.failFast_early (err : ε) (state : σ) (order : List S) :
    (⟨some err, state, []⟩ : Run σ ε S).FailFast order :=
  ⟨[], Or.inl ⟨rfl, List.nil_prefix, fun h => by simp at h⟩⟩

theorem Run.failFast_start (state : σ) : (Run.start state : Run σ ε S).FailFast [] :=
  ⟨[], Or.inl ⟨rfl, List.nil_prefix, fun _ => rfl⟩⟩

/-- Calling one more sub-step keeps the fail-fast shape. -/
theorem Run.failFast_andThen (r : Run σ ε S) (order : List S) (n : S) (f : SubStep σ ε)
    (h : r.FailFast order) : (r.andThen n f).FailFast (order ++ [n]) := by
  obtain ⟨done, h | ⟨m, e, ha, hp, he⟩⟩ := h
  · obtain ⟨ha, hp, hall⟩ := h
    cases hr : r.Err with
    | some e =>
      refine ⟨done, Or.inl ?_⟩
      have hsame : r.andThen n f = r := by simp [Run.andThen, hr]
      rw [hsame]
      exact ⟨ha, hp.trans (List.prefix_append _ _), fun h => by simp [hr] at h⟩
    | none =>
      have hd := hall hr
      subst hd
      cases ho : (f r.State).1 with
      | none =>
        refine ⟨done ++ [n], Or.inl ?_⟩
        simp [Run.andThen, hr, ho, ha]
      | some e =>
        refine ⟨done, Or.inr ⟨n, e, ?_⟩⟩
        simp [Run.andThen, hr, ho, ha]
  · refine ⟨done, Or.inr ⟨m, e, ?_⟩⟩
    have hsame : r.andThen n f = r := by simp [Run.andThen, he]
    rw [hsame]
    exact ⟨ha, hp.trans (List.prefix_append _ _), he⟩

/-- An error returned between two sub-steps keeps the fail-fast shape, for
every continuation of the order. -/
theorem Run.failFast_error (r : Run σ ε S) (order more : List S) (err : ε)
    (h : r.FailFast order) (hnone : r.Err = none) :
    ({ r with Err := some err } : Run σ ε S).FailFast (order ++ more) := by
  obtain ⟨done, h | ⟨m, e, _, _, he⟩⟩ := h
  · obtain ⟨ha, hp, _⟩ := h
    exact ⟨done, Or.inl ⟨ha, hp.trans (List.prefix_append _ _), fun h => by simp at h⟩⟩
  · rw [hnone] at he
    cases he

/-- A run that has returned an error keeps the fail-fast shape for every
continuation of the order. -/
theorem Run.failFast_extend (r : Run σ ε S) (order more : List S)
    (h : r.FailFast order) (herr : r.Err ≠ none) : r.FailFast (order ++ more) := by
  obtain ⟨done, h | ⟨m, e, ha, hp, he⟩⟩ := h
  · obtain ⟨ha, hp, _⟩ := h
    exact ⟨done, Or.inl ⟨ha, hp.trans (List.prefix_append _ _), fun h => absurd h herr⟩⟩
  · exact ⟨done, Or.inr ⟨m, e, ha, hp.trans (List.prefix_append _ _), he⟩⟩

/-- In a fail-fast run the sub-steps called are a prefix of the order. -/
theorem Run.FailFast.names_prefix {r : Run σ ε S} {order : List S} (h : r.FailFast order) :
    r.Applied.map Prod.fst <+: order := by
  obtain ⟨done, h | ⟨m, e, ha, hp, _⟩⟩ := h
  · obtain ⟨ha, hp, _⟩ := h
    have : r.Applied.map Prod.fst = done := by
      rw [ha]
      simp [List.map_map, Function.comp_def]
    rw [this]
    exact hp
  · have : r.Applied.map Prod.fst = done ++ [m] := by
      rw [ha]
      simp [List.map_map, Function.comp_def]
    rw [this]
    exact hp

/-- In a fail-fast run a sub-step that returned an error is the last one
called, and its error is the one the run returns. -/
theorem Run.FailFast.error_last {r : Run σ ε S} {order : List S} (h : r.FailFast order)
    (n : S) (e : ε) (hmem : (n, some e) ∈ r.Applied) :
    r.Err = some e ∧ r.Applied.getLast? = some (n, some e) := by
  obtain ⟨done, h | ⟨m, e', ha, _, he⟩⟩ := h
  · obtain ⟨ha, _, _⟩ := h
    rw [ha] at hmem
    simp at hmem
  · rw [ha] at hmem
    simp at hmem
    obtain ⟨hn, hee⟩ := hmem
    subst hn hee
    exact ⟨he, by simp [ha]⟩

/-- A fail-fast run that returns `nil` called every sub-step of the order,
and each returned `nil`. -/
theorem Run.FailFast.all_of_nil {r : Run σ ε S} {order : List S} (h : r.FailFast order)
    (hnil : r.Err = none) : r.Applied = order.map (fun n => (n, none)) := by
  obtain ⟨done, h | ⟨m, e, _, _, he⟩⟩ := h
  · obtain ⟨ha, _, hall⟩ := h
    rw [ha, hall hnil]
  · rw [hnil] at he
    cases he

end Pipeline

section Transition

variable {σ ε B V F A : Type}

/-- `ProcessBlock` is a fail-fast run over its calls in source order. -/
theorem ProcessBlock_failFast (d : BlockDeps σ ε B) (state : σ) (signedBlock : Option B) :
    (ProcessBlock d state signedBlock).FailFast blockStepOrder := by
  unfold ProcessBlock
  cases signedBlock with
  | none => exact Run.failFast_early _ _ _
  | some block =>
    dsimp only
    cases d.Slot state with
    | error err => exact Run.failFast_early _ _ _
    | ok slot =>
      dsimp only
      cases d.GetBeaconProposer slot with
      | error err => exact Run.failFast_early _ _ _
      | ok proposerIndex =>
        have h := Run.failFast_start (ε := ε) (S := BlockStep) state
        have h := Run.failFast_andThen _ _ .header (d.ProcessHeader block proposerIndex) h
        have h := Run.failFast_andThen _ _ .randaoReveal (d.ProcessRandaoReveal block) h
        have h := Run.failFast_andThen _ _ .eth1Vote (d.ProcessEth1Vote block) h
        have h := Run.failFast_andThen _ _ .checkLimits (fun s => (d.CheckLimits block, s)) h
        have h := Run.failFast_andThen _ _ .proposerSlashings
          (d.ProcessProposerSlashings block) h
        have h := Run.failFast_andThen _ _ .attesterSlashings
          (d.ProcessAttesterSlashings block) h
        have h := Run.failFast_andThen _ _ .attestations (d.ProcessAttestations block) h
        have h := Run.failFast_andThen _ _ .deposits (d.ProcessDeposits block) h
        have h := Run.failFast_andThen _ _ .voluntaryExits (d.ProcessVoluntaryExits block) h
        have h := Run.failFast_andThen _ _ .executionPayload
          (d.ProcessExecutionPayload block) h
        exact h

/-- C15: the sub-steps `ProcessBlock` calls are a prefix of its source order,
in which header, randao reveal, eth1 vote, proposer slashings, attester
slashings, attestations, deposits and voluntary exits come in exactly this
order; a sub-step that returns an error is the last one called and its error
is the one `ProcessBlock` returns; and `ProcessBlock` returns `nil` only when
every sub-step was called and returned `nil`. -/
theorem C15_ProcessBlock_order (d : BlockDeps σ ε B) (state : σ) (signedBlock : Option B) :
    (ProcessBlock d state signedBlock).Applied.map Prod.fst <+: blockStepOrder ∧
    ((ProcessBlock d state signedBlock).Applied.map Prod.fst).filter
      (fun n => decide (n ∈ blockSubSteps)) <+: blockSubSteps ∧
    (∀ n e, (n, some e) ∈ (ProcessBlock d state signedBlock).Applied →
      (ProcessBlock d state signedBlock).Err = some e ∧
      (ProcessBlock d state signedBlock).Applied.getLast? = some (n, some e)) ∧
    ((ProcessBlock d state signedBlock).Err = none →
      (ProcessBlock d state signedBlock).Applied =
        blockStepOrder.map (fun n => (n, none))) := by
  have h := ProcessBlock_failFast d state signedBlock
  refine ⟨h.names_prefix, ?_, h.error_last, h.all_of_nil⟩
  have hf : blockStepOrder.filter (fun n => decide (n ∈ blockSubSteps)) = blockSubSteps := by
    decide
  have hp := h.names_prefix.filter (fun n => decide (n ∈ blockSubSteps))
  rw [hf] at hp
  exact hp

/-- C15 at a concrete input: when the attestations sub-step fails with error
7, the six sub-steps before it ran in order and returned `nil`, error 7 is
returned, and deposits, voluntary exits and the execution payload are not
processed. -/
theorem C15_ProcessBlock_order_witness :
    (ProcessBlock (demoBlockDeps (fun n => n == .attestations)) [] (some ())).Err = some 7 ∧
    (ProcessBlock (demoBlockDeps (fun n => n == .attestations)) [] (some ())).Applied.map
      Prod.fst = [.header, .randaoReveal, .eth1Vote, .checkLimits, .proposerSlashings,
        .attesterSlashings, .attestations] ∧
    (ProcessBlock (demoBlockDeps (fun n => n == .attestations)) [] (some ())).Applied.getLast?
      = some (.attestations, some 7) :=
  ⟨by decide, by decide,
   ((C15_ProcessBlock_order (demoBlockDeps (fun n => n == .attestations)) [] (some ())).2.2.1
      .attestations 7 (by decide)).2⟩

/-- `ProcessEpoch` is a fail-fast run over its calls in source order. -/
theorem ProcessEpoch_failFast (d : EpochDeps σ ε V F A) (state : σ) :
    (ProcessEpoch d state).FailFast epochStepOrder := by
  have h := Run.failFast_start (ε := ε) (S := EpochStep) state
  have h := Run.failFast_andThen _ _ .pendingShardConfirmations
    d.ProcessPendingShardConfirmations h
  have h := Run.failFast_andThen _ _ .chargeConfirmedShardFees d.ChargeConfirmedShardFees h
  have h := Run.failFast_andThen _ _ .resetPendingShardWork d.ResetPendingShardWork h
  unfold ProcessEpoch
  dsimp only
  generalize ((Run.start state).andThen EpochStep.pendingShardConfirmations
    d.ProcessPendingShardConfirmations |>.andThen EpochStep.chargeConfirmedShardFees
    d.ChargeConfirmedShardFees |>.andThen EpochStep.resetPendingShardWork
    d.ResetPendingShardWork) = r at h ⊢
  cases hr : r.Err with
  | some e =>
    dsimp only
    exact Run.failFast_extend r _ epochStages h (by simp [hr])
  | none =>
    dsimp only
    cases d.Validators r.State with
    | error err => exact Run.failFast_error r _ epochStages err h hr
    | ok vals =>
      dsimp only
      cases d.FlattenValidators vals with
      | error err => exact Run.failFast_error r _ epochStages err h hr
      | ok flats =>
        dsimp only
        cases d.ComputeEpochAttesterData flats r.State with
        | error err => exact Run.failFast_error r _ epochStages err h hr
        | ok attesterData =>
          dsimp only
          have h := Run.failFast_andThen _ _ .justification
            (d.ProcessEpochJustification attesterData) h
          have h := Run.failFast_andThen _ _ .rewardsAndPenalties
            (d.ProcessEpochRewardsAndPenalties attesterData) h
          have h := Run.failFast_andThen _ _ .registryUpdates
            (d.ProcessEpochRegistryUpdates flats) h
          have h := Run.failFast_andThen _ _ .slashings (d.ProcessEpochSlashings flats) h
          have h := Run.failFast_andThen _ _ .eth1DataReset d.ProcessEth1DataReset h
          have h := Run.failFast_andThen _ _ .effectiveBalanceUpdates
            (d.ProcessEffectiveBalanceUpdates flats) h
          have h := Run.failFast_andThen _ _ .slashingsReset d.ProcessSlashingsReset h
          have h := Run.failFast_andThen _ _ .randaoMixesReset d.ProcessRandaoMixesReset h
          have h := Run.failFast_andThen _ _ .historicalRootsUpdate
            d.ProcessHistoricalRootsUpdate h
          have h := Run.failFast_andThen _ _ .participationRecordUpdates
            d.ProcessParticipationRecordUpdates h
          exact h

/-- C16: the stages `ProcessEpoch` calls are a prefix of its source order, in
which justification and finalization, rewards and penalties, registry
updates, slashings, eth1 data reset, effective balance updates, slashings
reset, randao mixes reset, historical roots update and participation record
rotation come in this fixed order; a stage that returns an error is the last
one called and its error is the one `ProcessEpoch` returns; and `ProcessEpoch`
returns `nil` only when every stage was called and returned `nil`. -/
theorem C16_ProcessEpoch_order (d : EpochDeps σ ε V F A) (state : σ) :
    (ProcessEpoch d state).Applied.map Prod.fst <+: epochStepOrder ∧
    ((ProcessEpoch d state).Applied.map Prod.fst).filter
      (fun n => decide (n ∈ epochStages)) <+: epochStages ∧
    (∀ n e, (n, some e) ∈ (ProcessEpoch d state).Applied →
      (ProcessEpoch d state).Err = some e ∧
      (ProcessEpoch d state).Applied.getLast? = some (n, some e)) ∧
    ((ProcessEpoch d state).Err = none →
      (ProcessEpoch d state).Applied = epochStepOrder.map (fun n => (n, none))) := by
  have h := ProcessEpoch_failFast d state
  refine ⟨h.names_prefix, ?_, h.error_last, h.all_of_nil⟩
  have hf : epochStepOrder.filter (fun n => decide (n ∈ epochStages)) = epochStages := by
    decide
  have hp := h.names_prefix.filter (fun n => decide (n ∈ epochStages))
  rw [hf] at hp
  exact hp

/-- C16 at a concrete input: when the slashings stage fails with error 4,
justification, rewards and penalties and registry updates ran before it in
this order, error 4 is returned and no later stage is applied. -/
theorem C16_ProcessEpoch_order_witness :
    (ProcessEpoch (demoEpochDeps (fun n => n == .slashings)) []).Err = some 4 ∧
    (ProcessEpoch (demoEpochDeps (fun n => n == .slashings)) []).State =
      [.pendingShardConfirmations, .chargeConfirmedShardFees, .resetPendingShardWork,
       .justification, .rewardsAndPenalties, .registryUpdates] ∧
    (ProcessEpoch (demoEpochDeps (fun n => n == .slashings)) []).Applied.getLast?
      = some (.slashings, some 4) :=
  ⟨by decide, by decide,
   ((C16_ProcessEpoch_order (demoEpochDeps (fun n => n == .slashings)) []).2.2.1
      .slashings 4 (by decide)).2⟩

/-- C19 (as stated, refuted): a block whose body fails `CheckLimits` and
whose header sub-step fails as well is answered with the header error 1, not
with the limit error 4; the limit check is not reached. -/
theorem C19_header_error_before_limit_error :
    (demoBlockDeps (fun n => n == .header || n == .checkLimits)).CheckLimits () = some 4 ∧
    (ProcessBlock (demoBlockDeps (fun n => n == .header || n == .checkLimits)) []
      (some ())).Err = some 1 ∧
    (ProcessBlock (demoBlockDeps (fun n => n == .header || n == .checkLimits)) []
      (some ())).Applied = [(.header, some 1)] := by
  decide

/-- C19 (amended): for a block whose body fails `CheckLimits`, `ProcessBlock`
returns a non-nil error and applies none of proposer slashings, attester
slashings, attestations, deposits, voluntary exits and execution payload
processing; the error is the limit error whenever the limit check is reached,
which is the case when the slot read, the proposer lookup and the header,
randao reveal and eth1 vote sub-steps succeed. -/
theorem C19_limits_before_operations (d : BlockDeps σ ε B) (state : σ) (block : B) (e : ε)
    (hlim : d.CheckLimits block = some e) :
    (ProcessBlock d state (some block)).Err ≠ none ∧
    (∀ s ∈ blockOperations, s ∉ (ProcessBlock d state (some block)).Applied.map Prod.fst) ∧
    (BlockStep.checkLimits ∈ (ProcessBlock d state (some block)).Applied.map Prod.fst →
      (ProcessBlock d state (some block)).Err = some e) ∧
    (∀ slot proposerIndex, d.Slot state = .ok slot →
      d.GetBeaconProposer slot = .ok proposerIndex →
      (d.ProcessHeader block proposerIndex state).1 = none →
      (d.ProcessRandaoReveal block (d.ProcessHeader block proposerIndex state).2).1 = none →
      (d.ProcessEth1Vote block
        (d.ProcessRandaoReveal block (d.ProcessHeader block proposerIndex state).2).2).1 = none →
      (ProcessBlock d state (some block)).Err = some e) := by
  unfold ProcessBlock
  dsimp only
  cases hs : d.Slot state with
  | error err => simp [blockOperations]
  | ok slot =>
    dsimp only
    cases hg : d.GetBeaconProposer slot with
    | error err =>
      refine ⟨by simp, by simp [blockOperations], by simp, ?_⟩
      intro s i hs' hg' _ _ _
      cases hs'
      rw [hg] at hg'
      cases hg'
    | ok proposerIndex =>
      dsimp only
      have hidx : ∀ s i, Except.ok (ε := ε) slot = Except.ok s →
          d.GetBeaconProposer s = Except.ok i → i = proposerIndex := by
        intro s i hs' hg'
        cases hs'
        rw [hg] at hg'
        cases hg'
        rfl
      cases h1 : (d.ProcessHeader block proposerIndex state).1 with
      | some e1 =>
        refine ⟨?_, ?_, ?_, ?_⟩
        · simp [Run.andThen, Run.start, h1]
        · simp [Run.andThen, Run.start, h1, blockOperations]
        · simp [Run.andThen, Run.start, h1]
        · intro s i hs' hg' a _ _
          rw [hidx s i hs' hg', h1] at a
          cases a
      | none =>
        cases h2 : (d.ProcessRandaoReveal block
            (d.ProcessHeader block proposerIndex state).2).1 with
        | some e2 =>
          refine ⟨?_, ?_, ?_, ?_⟩
          · simp [Run.andThen, Run.start, h1, h2]
          · simp [Run.andThen, Run.start, h1, h2, blockOperations]
          · simp [Run.andThen, Run.start, h1, h2]
          · intro s i hs' hg' _ b _
            rw [hidx s i hs' hg', h2] at b
            cases b
        | none =>
          cases h3 : (d.ProcessEth1Vote block (d.ProcessRandaoReveal block
              (d.ProcessHeader block proposerIndex state).2).2).1 with
          | some e3 =>
            refine ⟨?_, ?_, ?_, ?_⟩
            · simp [Run.andThen, Run.start, h1, h2, h3]
            · simp [Run.andThen, Run.start, h1, h2, h3, blockOperations]
            · simp [Run.andThen, Run.start, h1, h2, h3]
            · intro s i hs' hg' _ _ c
              rw [hidx s i hs' hg', h3] at c
              cases c
          | none =>
            refine ⟨?_, ?_, ?_, ?_⟩
            · simp [Run.andThen, Run.start, h1, h2, h3, hlim]
            · simp [Run.andThen, Run.start, h1, h2, h3, hlim, blockOperations]
            · simp [Run.andThen, Run.start, h1, h2, h3, hlim]
            · intro _ _ _ _ _ _ _
              simp [Run.andThen, Run.start, h1, h2, h3, hlim]

/-- C19 (amended) at a concrete input: header, randao reveal and eth1 vote
succeed, the limit check fails with error 4; error 4 is returned and the
state holds the effects of the first three sub-steps only. -/
theorem C19_limits_before_operations_witness :
    (demoBlockDeps (fun n => n == .checkLimits)).CheckLimits () = some 4 ∧
    (ProcessBlock (demoBlockDeps (fun n => n == .checkLimits)) [] (some ())).Err = some 4 ∧
    (ProcessBlock (demoBlockDeps (fun n => n == .checkLimits)) [] (some ())).State =
      [.header, .randaoReveal, .eth1Vote] :=
  ⟨by decide,
   (C19_limits_before_operations (demoBlockDeps (fun n => n == .checkLimits)) [] () 4
      (by decide)).2.2.2 5 2 rfl rfl (by decide) (by decide) (by decide),
   by decide⟩

end Transition

/-! ## Theorems: gossip validation, seen-set and proposer rules -/

section GossipSeen

variable {β σ : Type}

/-- The three shapes of a call: ended by rule 1 before any callback; ended by
one of rules 2-7 after `hasBlock` only; or past rule 7, after `hasBlock` and
then `markBlock`. -/
theorem Validate_shape (gv : GossipValidator β) (signedBlock : SignedBeaconBlock β)
    (hasBlock markBlock : SeenFn σ) (seen : σ) :
    ((gv.ValidateBeaconBlock signedBlock hasBlock markBlock seen).Calls = [] ∧
      (gv.ValidateBeaconBlock signedBlock hasBlock markBlock seen).Seen = seen ∧
      ∃ e, (gv.ValidateBeaconBlock signedBlock hasBlock markBlock seen).Value.Err = some e ∧
        e.rule = 1) ∨
    ((gv.ValidateBeaconBlock signedBlock hasBlock markBlock seen).Calls =
        [.hasBlock signedBlock.Message.Slot signedBlock.Message.ProposerIndex] ∧
      (gv.ValidateBeaconBlock signedBlock hasBlock markBlock seen).Seen =
        (hasBlock signedBlock.Message.Slot signedBlock.Message.ProposerIndex seen).2 ∧
      ∃ e, (gv.ValidateBeaconBlock signedBlock hasBlock markBlock seen).Value.Err = some e ∧
        2 ≤ e.rule ∧ e.rule ≤ 7) ∨
    ((gv.ValidateBeaconBlock signedBlock hasBlock markBlock seen).Calls =
        [.hasBlock signedBlock.Message.Slot signedBlock.Message.ProposerIndex,
         .markBlock signedBlock.Message.Slot signedBlock.Message.ProposerIndex] ∧
      (gv.ValidateBeaconBlock signedBlock hasBlock markBlock seen).Seen =
        (markBlock signedBlock.Message.Slot signedBlock.Message.ProposerIndex
          (hasBlock signedBlock.Message.Slot signedBlock.Message.ProposerIndex seen).2).2 ∧
      (gv.ValidateBeaconBlock signedBlock hasBlock markBlock seen).PassesRules 7) := by
  generalize hv : gv.ValidateBeaconBlock signedBlock hasBlock markBlock seen = v
  unfold GossipValidator.ValidateBeaconBlock at hv
  dsimp only at hv
  by_cases h1 : gv.SlotAfter gv.MAXIMUM_GOSSIP_CLOCK_DISPARITY < signedBlock.Message.Slot
  · rw [if_pos h1] at hv
    subst hv
    exact Or.inl ⟨rfl, rfl, _, rfl, rfl⟩
  rw [if_neg h1] at hv
  refine Or.inr ?_
  by_cases h2 : (hasBlock signedBlock.Message.Slot signedBlock.Message.ProposerIndex seen).1 = true
  · rw [if_pos h2] at hv
    subst hv
    exact Or.inl ⟨rfl, rfl, _, rfl, by simp [GossipError.rule]⟩
  rw [if_neg h2] at hv
  cases h3 : gv.ByBlockRoot signedBlock.Message.ParentRoot with
  | none =>
    rw [h3] at hv
    subst hv
    exact Or.inl ⟨rfl, rfl, _, rfl, by simp [GossipError.rule]⟩
  | some parentRef =>
    rw [h3] at hv
    dsimp only at hv
    by_cases h4 : parentRef.Slot ≥ signedBlock.Message.Slot
    · rw [if_pos h4] at hv
      subst hv
      exact Or.inl ⟨rfl, rfl, _, rfl, by simp [GossipError.rule]⟩
    rw [if_neg h4] at hv
    by_cases h5 : signedBlock.Message.Slot ≤ gv.EpochStartSlot gv.Finalized.Epoch
    · rw [if_pos h5] at hv
      subst hv
      exact Or.inl ⟨rfl, rfl, _, rfl, by simp [GossipError.rule]⟩
    rw [if_neg h5] at hv
    by_cases h6 : (gv.IsAncestor signedBlock.Message.ParentRoot gv.Finalized.Root).1 = true
    · rw [if_pos h6] at hv
      subst hv
      exact Or.inl ⟨rfl, rfl, _, rfl, by simp [GossipError.rule]⟩
    rw [if_neg h6] at hv
    by_cases h6' : (!(gv.IsAncestor signedBlock.Message.ParentRoot gv.Finalized.Root).2 &&
        signedBlock.Message.ParentRoot != gv.Finalized.Root) = true
    · rw [if_pos h6'] at hv
      subst hv
      exact Or.inl ⟨rfl, rfl, _, rfl, by simp [GossipError.rule]⟩
    rw [if_neg h6'] at hv
    cases hepc : parentRef.EpochsContext with
    | none =>
      rw [hepc] at hv
      subst hv
      exact Or.inl ⟨rfl, rfl, _, rfl, by simp [GossipError.rule]⟩
    | some parentEpc =>
      rw [hepc] at hv
      dsimp only at hv
      cases hpub : parentEpc.Pubkey signedBlock.Message.ProposerIndex with
      | none =>
        rw [hpub] at hv
        subst hv
        exact Or.inl ⟨rfl, rfl, _, rfl, by simp [GossipError.rule]⟩
      | some pub =>
        rw [hpub] at hv
        dsimp only at hv
        cases hdom : gv.GetDomain gv.DOMAIN_BEACON_PROPOSER
            (gv.SlotToEpoch signedBlock.Message.Slot) with
        | none =>
          rw [hdom] at hv
          subst hv
          exact Or.inl ⟨rfl, rfl, _, rfl, by simp [GossipError.rule]⟩
        | some domain =>
          rw [hdom] at hv
          dsimp only at hv
          by_cases hver : gv.Verify pub
              (gv.ComputeSigningRoot (gv.HashTreeRoot signedBlock.Message) domain)
              signedBlock.Signature = true
          · rw [if_pos hver] at hv
            subst hv
            exact Or.inl ⟨rfl, rfl, _, rfl, by simp [GossipError.rule]⟩
          rw [if_neg hver] at hv
          refine Or.inr ?_
          by_cases hm : (!(markBlock signedBlock.Message.Slot signedBlock.Message.ProposerIndex
              (hasBlock signedBlock.Message.Slot signedBlock.Message.ProposerIndex
                seen).2).1) = true
          · rw [if_pos hm] at hv
            subst hv
            refine ⟨rfl, rfl, ?_⟩
            intro e he
            cases he
            simp [GossipError.rule]
          rw [if_neg hm] at hv
          generalize (if gv.SlotToEpoch signedBlock.Message.Slot =
              gv.SlotToEpoch parentRef.Slot then
              parentEpc.GetBeaconProposer signedBlock.Message.Slot
            else some 1234) = lookup at hv
          cases lookup with
          | none =>
            subst hv
            refine ⟨rfl, rfl, ?_⟩
            intro e he
            cases he
            simp [GossipError.rule]
          | some proposer =>
            dsimp only at hv
            by_cases hp : proposer ≠ signedBlock.Message.ProposerIndex
            · rw [if_pos hp] at hv
              subst hv
              refine ⟨rfl, rfl, ?_⟩
              intro e he
              cases he
              simp [GossipError.rule]
            · rw [if_neg hp] at hv
              subst hv
              refine ⟨rfl, rfl, ?_⟩
              intro e he
              cases he

/-- When `markBlock` is called, rules 1-6 were passed, the parent's context,
the public key and the domain resolved, and `Verify` returned false. -/
theorem Validate_marked_unverified (gv : GossipValidator β) (signedBlock : SignedBeaconBlock β)
    (hasBlock markBlock : SeenFn σ) (seen : σ) (slot : Zrnt.Slot) (proposer : ValidatorIndex)
    (hcall : SeenCall.markBlock slot proposer ∈
      (gv.ValidateBeaconBlock signedBlock hasBlock markBlock seen).Calls) :
    ∃ parentRef parentEpc pub domain,
      ReachesSignature gv signedBlock hasBlock seen parentRef parentEpc pub domain ∧
      gv.Verify pub (gv.ComputeSigningRoot (gv.HashTreeRoot signedBlock.Message) domain)
        signedBlock.Signature = false := by
  rcases Validate_shape gv signedBlock hasBlock markBlock seen with h | h | h
  · rw [h.1] at hcall
    simp at hcall
  · rw [h.1] at hcall
    simp at hcall
  · exact Validate_passes_seven gv signedBlock hasBlock markBlock seen h.2.2

/-- C11 (the code at the failing input): with a `markBlock` that follows its
doc comment (true iff the pair was previously already seen), the first block
for (slot 10, proposer 2) gets past rules 1-7, `markBlock` returns false and
inserts the pair, and the block is answered with the duplicate IGNORE; when
`markBlock` returns true, "previously already seen", the call goes on to the
proposer check and the block is ACCEPTed. -/
theorem C11_documented_polarity_inverted :
    (seenMarkSeen 10 2 (seenHas 10 2 []).2).1 = false ∧
    ((demoGossip (false, true)).ValidateBeaconBlock (demoBlock 0) seenHas
      seenMarkSeen []).Value = ⟨.IGNORE, some (.alreadySeenOnMark 10 2)⟩ ∧
    ((demoGossip (false, true)).ValidateBeaconBlock (demoBlock 0) seenHas
      seenMarkSeen []).Seen = [(10, 2)] ∧
    (seenMarkSeenRaced 10 2 (seenHas 10 2 []).2).1 = true ∧
    ((demoGossip (false, true)).ValidateBeaconBlock (demoBlock 0) seenHas
      seenMarkSeenRaced []).Value = ⟨.ACCEPT, none⟩ := by
  decide

/-- C12 (the code at the failing input): the signature 0 of the slot-10 block
does not verify, yet `markBlock(10, 2)` is called and the pair is in the
seen-set after the call; for the same block with the verifying signature 154
`markBlock` is not called. -/
theorem C12_unverified_block_marked :
    (demoGossip (false, true)).Verify 102
      ((demoGossip (false, true)).ComputeSigningRoot
        ((demoGossip (false, true)).HashTreeRoot (demoBlock 0).Message) 1)
      (demoBlock 0).Signature = false ∧
    ((demoGossip (false, true)).ValidateBeaconBlock (demoBlock 0) seenHas seenMarkNew []).Calls
      = [.hasBlock 10 2, .markBlock 10 2] ∧
    ((demoGossip (false, true)).ValidateBeaconBlock (demoBlock 0) seenHas seenMarkNew []).Seen
      = [(10, 2)] ∧
    ((demoGossip (false, true)).ValidateBeaconBlock (demoBlock 154) seenHas seenMarkNew []).Calls
      = [.hasBlock 10 2] ∧
    ((demoGossip (false, true)).ValidateBeaconBlock (demoBlock 154) seenHas seenMarkNew []).Seen
      = [] := by
  decide

/-- A call that passes rules 1-8 has reached the signature test, got `false`
from `Verify` and `true` from `markBlock`. -/
theorem Validate_passes_eight (gv : GossipValidator β) (signedBlock : SignedBeaconBlock β)
    (hasBlock markBlock : SeenFn σ) (seen : σ)
    (hpass : (gv.ValidateBeaconBlock signedBlock hasBlock markBlock seen).PassesRules 8) :
    ∃ parentRef parentEpc pub domain,
      ReachesSignature gv signedBlock hasBlock seen parentRef parentEpc pub domain ∧
      gv.Verify pub (gv.ComputeSigningRoot (gv.HashTreeRoot signedBlock.Message) domain)
        signedBlock.Signature = false ∧
      (markBlock signedBlock.Message.Slot signedBlock.Message.ProposerIndex
        (hasBlock signedBlock.Message.Slot signedBlock.Message.ProposerIndex seen).2).1 = true := by
  have hseven : (gv.ValidateBeaconBlock signedBlock hasBlock markBlock seen).PassesRules 7 :=
    fun e he => Nat.lt_of_succ_lt (hpass e he)
  obtain ⟨parentRef, parentEpc, pub, domain, hr, hver⟩ :=
    Validate_passes_seven gv signedBlock hasBlock markBlock seen hseven
  refine ⟨parentRef, parentEpc, pub, domain, hr, hver, ?_⟩
  by_contra hm
  have hm' : (markBlock signedBlock.Message.Slot signedBlock.Message.ProposerIndex
      (hasBlock signedBlock.Message.Slot signedBlock.Message.ProposerIndex seen).2).1 = false := by
    simpa using hm
  have hval := (Validate_unverified_marked gv signedBlock hasBlock markBlock seen parentRef
    parentEpc pub domain hr hver).1 hm'
  have := hpass (.alreadySeenOnMark signedBlock.Message.Slot signedBlock.Message.ProposerIndex)
    (by rw [hval])
  simp [GossipError.rule] at this

/-- The proposer check of lines 93-107, for a call that no check of rules
1-8 ends (by `Validate_passes_eight` one in which `Verify` returned false and
`markBlock` true) and whose block is of its parent's epoch: when the parent's
epochs context returns proposer `p` for the block's slot the answer is ACCEPT
if `p` is the block's proposer index and REJECT if it is not, and when the
proposer lookup fails the answer is IGNORE. -/
theorem Validate_same_epoch_proposer (gv : GossipValidator β) (signedBlock : SignedBeaconBlock β)
    (hasBlock markBlock : SeenFn σ) (seen : σ) (parentRef : BlockRef)
    (parentEpc : EpochsContext)
    (hpass : (gv.ValidateBeaconBlock signedBlock hasBlock markBlock seen).PassesRules 8)
    (hparent : gv.ByBlockRoot signedBlock.Message.ParentRoot = some parentRef)
    (hctx : parentRef.EpochsContext = some parentEpc)
    (hepoch : gv.SlotToEpoch signedBlock.Message.Slot = gv.SlotToEpoch parentRef.Slot) :
    (∀ p, parentEpc.GetBeaconProposer signedBlock.Message.Slot = some p →
      (p = signedBlock.Message.ProposerIndex →
        (gv.ValidateBeaconBlock signedBlock hasBlock markBlock seen).Value =
          ⟨.ACCEPT, none⟩) ∧
      (p ≠ signedBlock.Message.ProposerIndex →
        (gv.ValidateBeaconBlock signedBlock hasBlock markBlock seen).Value =
          ⟨.REJECT, some (.wrongProposer p signedBlock.Message.ProposerIndex)⟩)) ∧
    (parentEpc.GetBeaconProposer signedBlock.Message.Slot = none →
      (gv.ValidateBeaconBlock signedBlock hasBlock markBlock seen).Value =
        ⟨.IGNORE, some (.noProposer signedBlock.Message.Slot)⟩) := by
  obtain ⟨parentRef', parentEpc', pub, domain, hr, hver, hm⟩ :=
    Validate_passes_eight gv signedBlock hasBlock markBlock seen hpass
  have hp : parentRef' = parentRef := by
    have := hr.rule3
    rw [hparent] at this
    exact (Option.some.inj this).symm
  subst hp
  have hc : parentEpc' = parentEpc := by
    have := hr.context
    rw [hctx] at this
    exact (Option.some.inj this).symm
  subst hc
  have hval := (Validate_unverified_marked gv signedBlock hasBlock markBlock seen parentRef'
    parentEpc' pub domain hr hver).2 hm
  rw [if_pos hepoch] at hval
  refine ⟨fun p hp => ⟨fun heq => ?_, fun hne => ?_⟩, fun hnone => ?_⟩
  · rw [hval, hp]
    simp [heq]
  · rw [hval, hp]
    simp [hne]
  · rw [hval, hnone]

/-- The proposer check at concrete inputs: the slot-10 block on the slot-9
parent (same epoch), with the non-verifying signature 0, is accepted when
proposed by the scheduled validator 2 and rejected when proposed by
validator 3. -/
theorem Validate_same_epoch_proposer_example :
    ((demoGossip (false, true)).ValidateBeaconBlock (demoBlock 0) seenHas
      seenMarkNew []).PassesRules 8 ∧
    ((demoGossip (false, true)).ValidateBeaconBlock (demoBlock 0) seenHas
      seenMarkNew []).Value = ⟨.ACCEPT, none⟩ ∧
    ((demoGossip (false, true)).ValidateBeaconBlock
      { Message := { Slot := 10, ProposerIndex := 3, ParentRoot := 7, StateRoot := 0, Body := () }
        Signature := 0 } seenHas seenMarkNew []).Value
      = ⟨.REJECT, some (.wrongProposer 2 3)⟩ :=
  have hpass : ((demoGossip (false, true)).ValidateBeaconBlock (demoBlock 0) seenHas
      seenMarkNew []).PassesRules 8 := by
    intro e he
    have hv : ((demoGossip (false, true)).ValidateBeaconBlock (demoBlock 0) seenHas
        seenMarkNew []).Value.Err = none := by decide
    rw [hv] at he
    cases he
  have hpass' : ((demoGossip (false, true)).ValidateBeaconBlock
      { Message := { Slot := 10, ProposerIndex := 3, ParentRoot := 7, StateRoot := 0, Body := () }
        Signature := 0 } seenHas seenMarkNew []).PassesRules 8 := by
    intro e he
    have hv : ((demoGossip (false, true)).ValidateBeaconBlock
        { Message := { Slot := 10, ProposerIndex := 3, ParentRoot := 7, StateRoot := 0,
                       Body := () }
          Signature := 0 } seenHas seenMarkNew []).Value.Err
        = some (.wrongProposer 2 3) := by decide
    rw [hv] at he
    cases he
    decide
  ⟨hpass,
   ((Validate_same_epoch_proposer (demoGossip (false, true)) (demoBlock 0) seenHas seenMarkNew []
      ⟨9, some demoEpc⟩ demoEpc hpass rfl rfl (by decide)).1 2 (by decide)).1 rfl,
   ((Validate_same_epoch_proposer (demoGossip (false, true))
      { Message := { Slot := 10, ProposerIndex := 3, ParentRoot := 7, StateRoot := 0, Body := () }
        Signature := 0 } seenHas seenMarkNew []
      ⟨9, some demoEpc⟩ demoEpc hpass' rfl rfl (by decide)).1 2 (by decide)).2 (by decide)⟩

/-- C13 (the code at the failing input): the block for slot 10 signed with
154 passes rules 1-8 (its signature verifies, `markBlock` would return true),
is of its parent's epoch, and the parent's epochs context returns its
proposer index 2 for slot 10; `ValidateBeaconBlock` answers REJECT "invalid
block signature" and not ACCEPT. The block of validator 3 with its verifying
signature 158 is rejected with the same diagnostic, not with the one of the
proposer check. -/
theorem C13_verified_block_not_accepted :
    ReachesSignature (demoGossip (false, true)) (demoBlock 154) seenHas []
      ⟨9, some demoEpc⟩ demoEpc 102 1 ∧
    (demoGossip (false, true)).Verify 102
      ((demoGossip (false, true)).ComputeSigningRoot
        ((demoGossip (false, true)).HashTreeRoot (demoBlock 154).Message) 1)
      (demoBlock 154).Signature = true ∧
    (seenMarkNew 10 2 (seenHas 10 2 []).2).1 = true ∧
    (demoGossip (false, true)).SlotToEpoch (demoBlock 154).Message.Slot =
      (demoGossip (false, true)).SlotToEpoch 9 ∧
    demoEpc.GetBeaconProposer 10 = some (demoBlock 154).Message.ProposerIndex ∧
    ((demoGossip (false, true)).ValidateBeaconBlock (demoBlock 154) seenHas
      seenMarkNew []).Value = ⟨.REJECT, some .invalidSignature⟩ ∧
    ((demoGossip (false, true)).ValidateBeaconBlock (demoBlock 154) seenHas
      seenMarkNew []).Value.Result ≠ .ACCEPT ∧
    ((demoGossip (false, true)).ValidateBeaconBlock
      { Message := { Slot := 10, ProposerIndex := 3, ParentRoot := 7, StateRoot := 0, Body := () }
        Signature := 158 } seenHas seenMarkNew []).Value
      = ⟨.REJECT, some .invalidSignature⟩ :=
  ⟨⟨by decide, by decide, rfl, by decide, by decide, by decide, rfl, rfl, rfl⟩,
   by decide, by decide, by decide, by decide, by decide, by decide, by decide⟩

/-- C14 (the code at the failing input): the slot-16 block (epoch 2) on the
slot-9 parent (epoch 1) gets past rules 1-8; the expected proposer is then
the constant 1234: proposed by validator 1234 the block is ACCEPTed, proposed
by validator 0, whom the schedule names for slot 16, it is REJECTed with
"expected proposer 1234". -/
theorem C14_cross_epoch_guessed_proposer :
    wideGossip.SlotToEpoch 16 ≠ wideGossip.SlotToEpoch 9 ∧
    (wideGossip.ValidateBeaconBlock (crossEpochBlock 1234) seenHas seenMarkNew []).Value
      = ⟨.ACCEPT, none⟩ ∧
    wideEpc.GetBeaconProposer 16 = some 0 ∧
    (wideGossip.ValidateBeaconBlock (crossEpochBlock 0) seenHas seenMarkNew []).Value
      = ⟨.REJECT, some (.wrongProposer 1234 0)⟩ := by
  decide

/-- C17: a block that fails one of rules 1-5 (slot after the tolerated
current slot, pair already seen, parent unknown, parent slot not before the
block's slot, or slot not after the start slot of the finalized epoch) is
answered with IGNORE and not with REJECT, whatever the ancestry answer, the
verifier and the proposer schedule are. -/
theorem C17_ignore_before_reject (gv : GossipValidator β) (signedBlock : SignedBeaconBlock β)
    (hasBlock markBlock : SeenFn σ) (seen : σ)
    (hfail : gv.SlotAfter gv.MAXIMUM_GOSSIP_CLOCK_DISPARITY < signedBlock.Message.Slot ∨
      (hasBlock signedBlock.Message.Slot signedBlock.Message.ProposerIndex seen).1 = true ∨
      gv.ByBlockRoot signedBlock.Message.ParentRoot = none ∨
      (∃ parentRef, gv.ByBlockRoot signedBlock.Message.ParentRoot = some parentRef ∧
        signedBlock.Message.Slot ≤ parentRef.Slot) ∨
      signedBlock.Message.Slot ≤ gv.EpochStartSlot gv.Finalized.Epoch) :
    (gv.ValidateBeaconBlock signedBlock hasBlock markBlock seen).Value.Result = .IGNORE ∧
    (gv.ValidateBeaconBlock signedBlock hasBlock markBlock seen).Value.Result ≠ .REJECT := by
  have key : (gv.ValidateBeaconBlock signedBlock hasBlock markBlock seen).Value.Result
      = .IGNORE := by
    by_cases h1 : gv.SlotAfter gv.MAXIMUM_GOSSIP_CLOCK_DISPARITY < signedBlock.Message.Slot
    · simp [GossipValidator.ValidateBeaconBlock, h1]
    by_cases h2 : (hasBlock signedBlock.Message.Slot signedBlock.Message.ProposerIndex seen).1
        = true
    · simp [GossipValidator.ValidateBeaconBlock, h1, h2]
    cases h3 : gv.ByBlockRoot signedBlock.Message.ParentRoot with
    | none => simp [GossipValidator.ValidateBeaconBlock, h1, h2, h3]
    | some parentRef =>
      by_cases h4 : signedBlock.Message.Slot ≤ parentRef.Slot
      · simp [GossipValidator.ValidateBeaconBlock, h1, h2, h3, h4]
      by_cases h5 : signedBlock.Message.Slot ≤ gv.EpochStartSlot gv.Finalized.Epoch
      · simp [GossipValidator.ValidateBeaconBlock, h1, h2, h3, h4, h5]
      exfalso
      rcases hfail with h | h | h | ⟨pr, hpr, hle⟩ | h
      · exact h1 h
      · exact h2 h
      · rw [h3] at h
        cases h
      · rw [h3] at hpr
        cases hpr
        exact h4 hle
      · exact h5 h
  exact ⟨key, by rw [key]; decide⟩

/-- C17 at a concrete input: the slot-9 block on the slot-9 parent fails
rule 4 and is ignored, although its parent is determined not to descend from
the finalized root, which alone would give REJECT. -/
theorem C17_ignore_before_reject_witness :
    ((demoGossip (false, false)).ValidateBeaconBlock
      { Message := { Slot := 9, ProposerIndex := 1, ParentRoot := 7, StateRoot := 0, Body := () }
        Signature := 0 } seenHas seenMarkNew []).Value.Result = .IGNORE :=
  (C17_ignore_before_reject (demoGossip (false, false))
    { Message := { Slot := 9, ProposerIndex := 1, ParentRoot := 7, StateRoot := 0, Body := () }
      Signature := 0 } seenHas seenMarkNew []
    (Or.inr (Or.inr (Or.inr (Or.inl ⟨⟨9, some demoEpc⟩, rfl, by decide⟩))))).1

/-- Every diagnostic of rules 1-6 is returned only when its rule fails. -/
theorem Validate_error_sound (gv : GossipValidator β) (signedBlock : SignedBeaconBlock β)
    (hasBlock markBlock : SeenFn σ) (seen : σ) (e : GossipError)
    (herr : (gv.ValidateBeaconBlock signedBlock hasBlock markBlock seen).Value.Err = some e) :
    (e.rule = 1 →
      gv.SlotAfter gv.MAXIMUM_GOSSIP_CLOCK_DISPARITY < signedBlock.Message.Slot) ∧
    (e.rule = 2 →
      (hasBlock signedBlock.Message.Slot signedBlock.Message.ProposerIndex seen).1 = true) ∧
    (e.rule = 3 → gv.ByBlockRoot signedBlock.Message.ParentRoot = none) ∧
    (e.rule = 4 → ∃ parentRef, gv.ByBlockRoot signedBlock.Message.ParentRoot = some parentRef ∧
      signedBlock.Message.Slot ≤ parentRef.Slot) ∧
    (e.rule = 5 → signedBlock.Message.Slot ≤ gv.EpochStartSlot gv.Finalized.Epoch) ∧
    (e.rule = 6 →
      (gv.IsAncestor signedBlock.Message.ParentRoot gv.Finalized.Root).1 = true ∨
      ((gv.IsAncestor signedBlock.Message.ParentRoot gv.Finalized.Root).2 = false ∧
        signedBlock.Message.ParentRoot ≠ gv.Finalized.Root)) := by
  generalize hv : gv.ValidateBeaconBlock signedBlock hasBlock markBlock seen = v at herr
  unfold GossipValidator.ValidateBeaconBlock at hv
  dsimp only at hv
  by_cases h1 : gv.SlotAfter gv.MAXIMUM_GOSSIP_CLOCK_DISPARITY < signedBlock.Message.Slot
  · rw [if_pos h1] at hv
    subst hv
    cases herr
    simp [GossipError.rule, h1]
  rw [if_neg h1] at hv
  by_cases h2 : (hasBlock signedBlock.Message.Slot signedBlock.Message.ProposerIndex seen).1 = true
  · rw [if_pos h2] at hv
    subst hv
    cases herr
    simp [GossipError.rule, h2]
  rw [if_neg h2] at hv
  cases h3 : gv.ByBlockRoot signedBlock.Message.ParentRoot with
  | none =>
    rw [h3] at hv
    subst hv
    cases herr
    simp [GossipError.rule]
  | some parentRef =>
    rw [h3] at hv
    dsimp only at hv
    by_cases h4 : parentRef.Slot ≥ signedBlock.Message.Slot
    · rw [if_pos h4] at hv
      subst hv
      cases herr
      simp [GossipError.rule]
      exact h4
    rw [if_neg h4] at hv
    by_cases h5 : signedBlock.Message.Slot ≤ gv.EpochStartSlot gv.Finalized.Epoch
    · rw [if_pos h5] at hv
      subst hv
      cases herr
      simp [GossipError.rule, h5]
    rw [if_neg h5] at hv
    by_cases h6 : (gv.IsAncestor signedBlock.Message.ParentRoot gv.Finalized.Root).1 = true
    · rw [if_pos h6] at hv
      subst hv
      cases herr
      simp [GossipError.rule, h6]
    rw [if_neg h6] at hv
    by_cases h6' : (!(gv.IsAncestor signedBlock.Message.ParentRoot gv.Finalized.Root).2 &&
        signedBlock.Message.ParentRoot != gv.Finalized.Root) = true
    · rw [if_pos h6'] at hv
      subst hv
      cases herr
      have h6'' : (gv.IsAncestor signedBlock.Message.ParentRoot gv.Finalized.Root).2 = false ∧
          signedBlock.Message.ParentRoot ≠ gv.Finalized.Root := by simpa using h6'
      simp only [GossipError.rule]
      exact ⟨by simp, by simp, by simp, by simp, by simp, fun _ => Or.inr h6''⟩
    rw [if_neg h6'] at hv
    cases hepc : parentRef.EpochsContext with
    | none =>
      rw [hepc] at hv
      subst hv
      cases herr
      simp [GossipError.rule]
    | some parentEpc =>
      rw [hepc] at hv
      dsimp only at hv
      cases hpub : parentEpc.Pubkey signedBlock.Message.ProposerIndex with
      | none =>
        rw [hpub] at hv
        subst hv
        cases herr
        simp [GossipError.rule]
      | some pub =>
        rw [hpub] at hv
        dsimp only at hv
        cases hdom : gv.GetDomain gv.DOMAIN_BEACON_PROPOSER
            (gv.SlotToEpoch signedBlock.Message.Slot) with
        | none =>
          rw [hdom] at hv
          subst hv
          cases herr
          simp [GossipError.rule]
        | some domain =>
          rw [hdom] at hv
          dsimp only at hv
          by_cases hver : gv.Verify pub
              (gv.ComputeSigningRoot (gv.HashTreeRoot signedBlock.Message) domain)
              signedBlock.Signature = true
          · rw [if_pos hver] at hv
            subst hv
            cases herr
            simp [GossipError.rule]
          rw [if_neg hver] at hv
          by_cases hm : (!(markBlock signedBlock.Message.Slot signedBlock.Message.ProposerIndex
              (hasBlock signedBlock.Message.Slot signedBlock.Message.ProposerIndex
                seen).2).1) = true
          · rw [if_pos hm] at hv
            subst hv
            cases herr
            simp [GossipError.rule]
          rw [if_neg hm] at hv
          generalize (if gv.SlotToEpoch signedBlock.Message.Slot =
              gv.SlotToEpoch parentRef.Slot then
              parentEpc.GetBeaconProposer signedBlock.Message.Slot
            else some 1234) = lookup at hv
          cases lookup with
          | none =>
            subst hv
            cases herr
            simp [GossipError.rule]
          | some proposer =>
            dsimp only at hv
            by_cases hp : proposer ≠ signedBlock.Message.ProposerIndex
            · rw [if_pos hp] at hv
              subst hv
              cases herr
              simp [GossipError.rule]
            · rw [if_neg hp] at hv
              subst hv
              cases herr

/-- C18 (as stated, refuted): the slot-10 block on the finalized block (root
3) passes rules 1-5 and its parent root is the finalized root, yet with
`IsAncestor` reporting "undeterminable" it is answered with IGNORE on ancestry
grounds and does not proceed to the signature check. -/
theorem C18_undeterminable_on_finalized_ignored :
    ReachesAncestry (demoGossip (true, false)) (onFinalizedBlock 0) seenHas []
      ⟨8, some demoEpc⟩ ∧
    (onFinalizedBlock 0).Message.ParentRoot = (demoGossip (true, false)).Finalized.Root ∧
    ((demoGossip (true, false)).IsAncestor 3 3).1 = true ∧
    ((demoGossip (true, false)).ValidateBeaconBlock (onFinalizedBlock 0) seenHas
      seenMarkNew []).Value = ⟨.IGNORE, some (.ancestryUnknown 3 3)⟩ :=
  ⟨⟨by decide, by decide, rfl, by decide, by decide⟩, by decide, by decide, by decide⟩

/-- C18 (amended): for a block that passes rules 1-5 and whose parent root is
the finalized root, a determinate answer of `IsAncestor`, be it true or
false, satisfies rule 6: the call is not ended by any of rules 1-6 and goes on
to the signature step; an undeterminable answer gives IGNORE. -/
theorem C18_on_finalized_root (gv : GossipValidator β) (signedBlock : SignedBeaconBlock β)
    (hasBlock markBlock : SeenFn σ) (seen : σ) (parentRef : BlockRef)
    (hreach : ReachesAncestry gv signedBlock hasBlock seen parentRef)
    (hroot : signedBlock.Message.ParentRoot = gv.Finalized.Root) :
    ((gv.IsAncestor signedBlock.Message.ParentRoot gv.Finalized.Root).1 = false →
      (gv.ValidateBeaconBlock signedBlock hasBlock markBlock seen).PassesRules 6) ∧
    ((gv.IsAncestor signedBlock.Message.ParentRoot gv.Finalized.Root).1 = true →
      (gv.ValidateBeaconBlock signedBlock hasBlock markBlock seen).Value =
        ⟨.IGNORE, some (.ancestryUnknown signedBlock.Message.ParentRoot gv.Finalized.Root)⟩) := by
  constructor
  · intro hdet e he
    obtain ⟨s1, s2, s3, s4, s5, s6⟩ :=
      Validate_error_sound gv signedBlock hasBlock markBlock seen e he
    by_contra hle
    have hle' : e.rule ≤ 6 := Nat.not_lt.mp hle
    have hpos : 1 ≤ e.rule := by cases e <;> simp [GossipError.rule]
    have hcases : e.rule = 1 ∨ e.rule = 2 ∨ e.rule = 3 ∨ e.rule = 4 ∨ e.rule = 5 ∨
        e.rule = 6 := by omega
    rcases hcases with h | h | h | h | h | h
    · exact absurd (s1 h) (Nat.not_lt.mpr hreach.rule1)
    · have := s2 h
      rw [hreach.rule2] at this
      cases this
    · have := s3 h
      rw [hreach.rule3] at this
      cases this
    · obtain ⟨pr, hpr, hs⟩ := s4 h
      rw [hreach.rule3] at hpr
      cases hpr
      exact absurd hs (Nat.not_le.mpr hreach.rule4)
    · exact absurd (s5 h) (Nat.not_le.mpr hreach.rule5)
    · rcases s6 h with hu | ⟨_, hne⟩
      · rw [hdet] at hu
        cases hu
      · exact hne hroot
  · intro hunk
    have h1 : ¬ gv.SlotAfter gv.MAXIMUM_GOSSIP_CLOCK_DISPARITY < signedBlock.Message.Slot :=
      Nat.not_lt.mpr hreach.rule1
    have h4 : ¬ signedBlock.Message.Slot ≤ parentRef.Slot := Nat.not_le.mpr hreach.rule4
    have h5 : ¬ signedBlock.Message.Slot ≤ gv.EpochStartSlot gv.Finalized.Epoch :=
      Nat.not_le.mpr hreach.rule5
    simp [GossipValidator.ValidateBeaconBlock, h1, hreach.rule2, hreach.rule3, h4, h5, hunk]

/-- C18 (amended) at a concrete input: `IsAncestor` answers a determinate
"not an ancestor" for the block on the finalized root; the block is not
rejected on ancestry grounds, the call goes on past the signature step. -/
theorem C18_on_finalized_root_witness :
    ((demoGossip (false, false)).IsAncestor 3 3) = (false, false) ∧
    ((demoGossip (false, false)).ValidateBeaconBlock (onFinalizedBlock 0) seenHas
      seenMarkNew []).PassesRules 6 ∧
    ((demoGossip (false, false)).ValidateBeaconBlock (onFinalizedBlock 0) seenHas
      seenMarkNew []).Calls = [.hasBlock 10 2, .markBlock 10 2] :=
  ⟨by decide,
   (C18_on_finalized_root (demoGossip (false, false)) (onFinalizedBlock 0) seenHas seenMarkNew
      [] ⟨8, some demoEpc⟩ ⟨by decide, by decide, rfl, by decide, by decide⟩ (by decide)).1
      (by decide),
   by decide⟩

/-- C20: in every call `hasBlock` is called at most once and `markBlock` at
most once, `hasBlock` never after `markBlock`; when the call is ended by one
of rules 1-6 or by a failure to resolve the parent's epochs context, the
proposer's public key or the signing domain, `markBlock` is not called, and
the seen-set is the one `hasBlock` left, unchanged if `hasBlock` does no
tracking. -/
theorem C20_seen_set_discipline (gv : GossipValidator β) (signedBlock : SignedBeaconBlock β)
    (hasBlock markBlock : SeenFn σ) (seen : σ) :
    ((gv.ValidateBeaconBlock signedBlock hasBlock markBlock seen).Calls = [] ∨
      (gv.ValidateBeaconBlock signedBlock hasBlock markBlock seen).Calls =
        [.hasBlock signedBlock.Message.Slot signedBlock.Message.ProposerIndex] ∨
      (gv.ValidateBeaconBlock signedBlock hasBlock markBlock seen).Calls =
        [.hasBlock signedBlock.Message.Slot signedBlock.Message.ProposerIndex,
         .markBlock signedBlock.Message.Slot signedBlock.Message.ProposerIndex]) ∧
    ((gv.ValidateBeaconBlock signedBlock hasBlock markBlock seen).Calls.filter
      SeenCall.isHas).length ≤ 1 ∧
    ((gv.ValidateBeaconBlock signedBlock hasBlock markBlock seen).Calls.filter
      SeenCall.isMark).length ≤ 1 ∧
    (∀ e, (gv.ValidateBeaconBlock signedBlock hasBlock markBlock seen).Value.Err = some e →
      (e.rule ≤ 6 ∨ (∃ r, e = .noParentContext r) ∨ (∃ i, e = .noPubkey i) ∨
        (∃ s, e = .noDomain s)) →
      (∀ c ∈ (gv.ValidateBeaconBlock signedBlock hasBlock markBlock seen).Calls,
        c.isMark = false) ∧
      ((gv.ValidateBeaconBlock signedBlock hasBlock markBlock seen).Seen = seen ∨
        (gv.ValidateBeaconBlock signedBlock hasBlock markBlock seen).Seen =
          (hasBlock signedBlock.Message.Slot signedBlock.Message.ProposerIndex seen).2) ∧
      ((hasBlock signedBlock.Message.Slot signedBlock.Message.ProposerIndex seen).2 = seen →
        (gv.ValidateBeaconBlock signedBlock hasBlock markBlock seen).Seen = seen)) := by
  rcases Validate_shape gv signedBlock hasBlock markBlock seen with h | h | h
  · obtain ⟨hc, hs, _⟩ := h
    refine ⟨Or.inl hc, by simp [hc], by simp [hc], ?_⟩
    intro e _ _
    exact ⟨by simp [hc], Or.inl hs, fun _ => hs⟩
  · obtain ⟨hc, hs, _⟩ := h
    refine ⟨Or.inr (Or.inl hc), by simp [hc, SeenCall.isHas], by simp [hc, SeenCall.isMark], ?_⟩
    intro e _ _
    exact ⟨by simp [hc, SeenCall.isMark], Or.inr hs, fun hpure => hs.trans hpure⟩
  · obtain ⟨hc, _, hpass⟩ := h
    refine ⟨Or.inr (Or.inr hc), by simp [hc, SeenCall.isHas, SeenCall.isMark],
      by simp [hc, SeenCall.isHas, SeenCall.isMark], ?_⟩
    intro e he hdecided
    exfalso
    have h7 := hpass e he
    rcases hdecided with hle | ⟨r, hr⟩ | ⟨i, hi⟩ | ⟨s, hs⟩
    · omega
    · subst hr
      simp [GossipError.rule] at h7
    · subst hi
      simp [GossipError.rule] at h7
    · subst hs
      simp [GossipError.rule] at h7

/-- C20 at a concrete input: the block whose public key does not resolve
(validator 9) is ignored after the single `hasBlock` call, with the seen-set
as it was. -/
theorem C20_seen_set_discipline_witness :
    ((demoGossip (false, true)).ValidateBeaconBlock
      { Message := { Slot := 10, ProposerIndex := 9, ParentRoot := 7, StateRoot := 0, Body := () }
        Signature := 0 } seenHas seenMarkNew [(9, 1)]).Value = ⟨.IGNORE, some (.noPubkey 9)⟩ ∧
    ((demoGossip (false, true)).ValidateBeaconBlock
      { Message := { Slot := 10, ProposerIndex := 9, ParentRoot := 7, StateRoot := 0, Body := () }
        Signature := 0 } seenHas seenMarkNew [(9, 1)]).Seen = [(9, 1)] :=
  ⟨by decide,
   ((C20_seen_set_discipline (demoGossip (false, true))
      { Message := { Slot := 10, ProposerIndex := 9, ParentRoot := 7, StateRoot := 0, Body := () }
        Signature := 0 } seenHas seenMarkNew [(9, 1)]).2.2.2 (.noPubkey 9) (by decide)
      (Or.inr (Or.inr (Or.inl ⟨9, rfl⟩)))).2.2 (by decide)⟩


end GossipSeen

end Zrnt
